import Mathlib

/-!
Verification of the STM32F103 I2C master-mode bus engine
(`src/shell/i2c.cpp`) against its natural-language specification.

The hardware is modelled as follows.  Volatile reads of the status
registers SR1/SR2, of the data register DR and of the DMA
transfer-complete flag are environment-driven: an `Env` supplies, for
each register, the value returned by its `i`-th read.  Control
registers (CR1, CR2, OAR1, OAR2, CCR, TRISE) behave as ordinary
memory: a read returns the last written value.  Every register access
and every DMA-channel call is recorded in an append-only event trace,
so ordering claims (for example "NACK and STOP are written before the
second-to-last data-register read") are statements about the trace.
-/

namespace stm32f103

/-- CR1 bit: software reset. -/
def SWRST : Nat := 1 <<< 15
/-- CR1 bit: acknowledge/PEC position. -/
def POS : Nat := 1 <<< 11
/-- CR1 bit: acknowledge enable. -/
def ACK : Nat := 1 <<< 10
/-- CR1 bit: stop-condition request. -/
def STOP : Nat := 1 <<< 9
/-- CR1 bit: start-condition request. -/
def START : Nat := 1 <<< 8
/-- CR1 bit: peripheral enable. -/
def PE : Nat := 1

/-- CR2 bit: next DMA byte is the last. -/
def LAST : Nat := 1 <<< 12
/-- CR2 bit: DMA requests enable. -/
def DMAEN : Nat := 1 <<< 11
/-- CR2 field mask: peripheral clock frequency in MHz. -/
def FREQ : Nat := 0x3f

/-- SR1 bit: SMBus alert. -/
def SMB_ALART : Nat := 1 <<< 15
/-- SR1 bit: timeout error. -/
def TIME_OUT : Nat := 1 <<< 14
/-- SR1 bit: PEC error in reception. -/
def PEC_ERR : Nat := 1 <<< 12
/-- SR1 bit: overrun/underrun. -/
def OVR : Nat := 1 <<< 11
/-- SR1 bit: acknowledge failure. -/
def AF : Nat := 1 <<< 10
/-- SR1 bit: arbitration lost. -/
def ARLO : Nat := 1 <<< 9
/-- SR1 bit: bus error. -/
def BERR : Nat := 1 <<< 8
/-- SR1 bit: data register empty (transmitter). -/
def TxE : Nat := 1 <<< 7
/-- SR1 bit: data register not empty (receiver). -/
def RxNE : Nat := 1 <<< 6
/-- SR1 bit: stop detection. -/
def STOPF : Nat := 1 <<< 4
/-- SR1 bit: byte transfer finished. -/
def BTF : Nat := 1 <<< 2
/-- SR1 bit: address sent/matched. -/
def ADDR : Nat := 1 <<< 1
/-- SR1 bit: start bit generated. -/
def SB : Nat := 1
/-- SR2 bit: bus busy. -/
def BUSY : Nat := 1 <<< 1
/-- SR2 bit: master/slave. -/
def MSL : Nat := 1

/-- Union of the error-condition status bits, as in the source:
SMB_ALART, TIME_OUT, PEC_ERR, OVR, AF, ARLO, BERR. -/
def error_condition : Nat :=
  SMB_ALART ||| TIME_OUT ||| PEC_ERR ||| OVR ||| AF ||| ARLO ||| BERR

/-- Target I2C bus clock, 100 kHz, as in the source. -/
def i2c_clock_speed : Nat := 100000

/-- One recorded hardware access: writes to control registers, reads of
the environment-driven registers, and calls into the DMA channel. -/
inductive Event where
  | wCR1 (v : Nat)
  | wCR2 (v : Nat)
  | wDR (v : Nat)
  | wSR1 (v : Nat)
  | wOAR1 (v : Nat)
  | wOAR2 (v : Nat)
  | wCCR (v : Nat)
  | wTRISE (v : Nat)
  | rSR1 (v : Nat)
  | rSR2 (v : Nat)
  | rDR (v : Nat)
  | bindTx (len : Nat)
  | bindRx (len : Nat)
  | chanEnable
  | chanDisable
  deriving DecidableEq, Repr

/-- Environment: the value delivered by the `i`-th read of each
environment-driven register, the DMA transfer-complete flag at its
`i`-th poll, and the iteration budget of the bounded condition wait
(`condition_wait.hpp` is not part of the sources; the budget is the
"fixed iteration budget" of spec section 4.2). -/
structure Env where
  sr1 : Nat → Nat
  sr2 : Nat → Nat
  dr : Nat → Nat
  tc : Nat → Bool
  bound : Nat

/-- Peripheral register state: control registers hold their last
written value; `nsr1`, `nsr2`, `ndr`, `ntc` count the reads performed
so far on the environment-driven inputs; `trace` records every access
in order. -/
structure Regs where
  cr1 : Nat
  cr2 : Nat
  oar1 : Nat
  oar2 : Nat
  ccr : Nat
  trise : Nat
  nsr1 : Nat
  nsr2 : Nat
  ndr : Nat
  ntc : Nat
  trace : List Event
  deriving DecidableEq, Repr

/-- Volatile read of SR1: consumes the next value of the SR1 stream. -/
def readSR1 (e : Env) (s : Regs) : Nat × Regs :=
  (e.sr1 s.nsr1,
   { s with nsr1 := s.nsr1 + 1, trace := s.trace ++ [Event.rSR1 (e.sr1 s.nsr1)] })

/-- Volatile read of SR2: consumes the next value of the SR2 stream. -/
def readSR2 (e : Env) (s : Regs) : Nat × Regs :=
  (e.sr2 s.nsr2,
   { s with nsr2 := s.nsr2 + 1, trace := s.trace ++ [Event.rSR2 (e.sr2 s.nsr2)] })

/-- Volatile read of DR: consumes the next value of the DR stream. -/
def readDR (e : Env) (s : Regs) : Nat × Regs :=
  (e.dr s.ndr,
   { s with ndr := s.ndr + 1, trace := s.trace ++ [Event.rDR (e.dr s.ndr)] })

/-- Poll of the DMA channel's transfer-complete flag. -/
def readTC (e : Env) (s : Regs) : Bool × Regs :=
  (e.tc s.ntc, { s with ntc := s.ntc + 1 })

/-- Write to CR1. -/
def writeCR1 (v : Nat) (s : Regs) : Regs :=
  { s with cr1 := v, trace := s.trace ++ [Event.wCR1 v] }

/-- Write to CR2. -/
def writeCR2 (v : Nat) (s : Regs) : Regs :=
  { s with cr2 := v, trace := s.trace ++ [Event.wCR2 v] }

/-- Write to DR. -/
def writeDR (v : Nat) (s : Regs) : Regs :=
  { s with trace := s.trace ++ [Event.wDR v] }

/-- Write to SR1 (used only to clear error bits); SR1 reads stay
environment-driven, so only the trace records the write. -/
def writeSR1 (v : Nat) (s : Regs) : Regs :=
  { s with trace := s.trace ++ [Event.wSR1 v] }

/-- Write to OAR1. -/
def writeOAR1 (v : Nat) (s : Regs) : Regs :=
  { s with oar1 := v, trace := s.trace ++ [Event.wOAR1 v] }

/-- Write to OAR2. -/
def writeOAR2 (v : Nat) (s : Regs) : Regs :=
  { s with oar2 := v, trace := s.trace ++ [Event.wOAR2 v] }

/-- Write to CCR. -/
def writeCCR (v : Nat) (s : Regs) : Regs :=
  { s with ccr := v, trace := s.trace ++ [Event.wCCR v] }

/-- Write to TRISE. -/
def writeTRISE (v : Nat) (s : Regs) : Regs :=
  { s with trise := v, trace := s.trace ++ [Event.wTRISE v] }

/-- Record a DMA-channel call in the trace. -/
def emitEvent (ev : Event) (s : Regs) : Regs :=
  { s with trace := s.trace ++ [ev] }

/-- Modelled from the spec: the bounded condition wait of
`condition_wait.hpp` (missing from the sources; spec section 4.2):
repeatedly evaluate the predicate, with its side effects, until it is
true or the iteration budget is exhausted; true means the condition
was met. -/
def condition_wait (fuel : Nat) (pred : Regs → Bool × Regs) (s : Regs) : Bool × Regs :=
  match fuel with
  | 0 => (false, s)
  | n + 1 =>
    let (b, s') := pred s
    if b then (true, s') else condition_wait n pred s'

/-- The `i2c_status::status()` decoder, translated literally from the
source including the short-circuit evaluation and the fact that each
mention of `_.SR1` / `_.SR2` is a separate volatile read:
`((_.SR1 & STOPF) == 0 || ((_.SR1 & ADDR) == ADDR)) ? (_.SR2 << 16) | _.SR1 : _.SR1`. -/
def i2c_status_status (e : Env) (s : Regs) : Nat × Regs :=
  let (a, s) := readSR1 e s
  if a &&& STOPF == 0 then
    let (c, s) := readSR2 e s
    let (d, s) := readSR1 e s
    ((c <<< 16) ||| d, s)
  else
    let (b, s) := readSR1 e s
    if b &&& ADDR == ADDR then
      let (c, s) := readSR2 e s
      let (d, s) := readSR1 e s
      ((c <<< 16) ||| d, s)
    else
      let (f, s) := readSR1 e s
      (f, s)

/-- The `i2c_status::busy()` predicate: `_.SR2 & BUSY`. -/
def i2c_status_busy (e : Env) (s : Regs) : Bool × Regs :=
  let (v, s) := readSR2 e s
  (v &&& BUSY != 0, s)

/-- Bounded wait for the start-bit-sent flag: `SR1 & SB`. -/
def waitSB (e : Env) (s : Regs) : Bool × Regs :=
  condition_wait e.bound
    (fun s => let (v, s) := readSR1 e s; ((v &&& SB) != 0, s)) s

/-- Bounded wait for the address-sent flag: `SR1 & ADDR`. -/
def waitADDR (e : Env) (s : Regs) : Bool × Regs :=
  condition_wait e.bound
    (fun s => let (v, s) := readSR1 e s; ((v &&& ADDR) != 0, s)) s

/-- Bounded wait on the source's `!_.SR1 & ADDR`: C++ precedence
applies `!` to the register value first, so the predicate is
`(!SR1) & ADDR`, which is 0 for every SR1 value — the wait always
runs its full budget and fails. -/
def waitBogus (e : Env) (s : Regs) : Bool × Regs :=
  condition_wait e.bound
    (fun s =>
      let (v, s) := readSR1 e s
      ((((if v == 0 then 1 else 0) &&& ADDR)) != 0, s)) s

/-- Bounded wait for byte-ready-or-transfer-finished:
`SR1 & (RxNE|BTF)`. -/
def waitRxNEorBTF (e : Env) (s : Regs) : Bool × Regs :=
  condition_wait e.bound
    (fun s => let (v, s) := readSR1 e s; ((v &&& (RxNE ||| BTF)) != 0, s)) s

/-- Bounded wait for transfer-finished: `SR1 & BTF`. -/
def waitBTF (e : Env) (s : Regs) : Bool × Regs :=
  condition_wait e.bound
    (fun s => let (v, s) := readSR1 e s; ((v &&& BTF) != 0, s)) s

/-- Bounded wait for byte-ready: `SR1 & RxNE`. -/
def waitRxNE (e : Env) (s : Regs) : Bool × Regs :=
  condition_wait e.bound
    (fun s => let (v, s) := readSR1 e s; ((v &&& RxNE) != 0, s)) s

/-- Bounded wait for bus-idle: `!bitset::test(SR2, BUSY)`. -/
def waitNotBusy (e : Env) (s : Regs) : Bool × Regs :=
  condition_wait e.bound
    (fun s => let (v, s) := readSR2 e s; ((v &&& BUSY) == 0, s)) s

/-- Bounded wait of the transmitter on `_.SR1 & TxE | BTF`, which by
C++ precedence is `(SR1 & TxE) | BTF` — nonzero for every SR1 value,
so this wait succeeds at its first poll unconditionally. -/
def waitTxE (e : Env) (s : Regs) : Bool × Regs :=
  condition_wait e.bound
    (fun s => let (v, s) := readSR1 e s; ((((v &&& TxE) ||| BTF)) != 0, s)) s

/-- Bounded wait on the DMA channel's transfer-complete flag. -/
def waitTC (e : Env) (s : Regs) : Bool × Regs :=
  condition_wait e.bound (fun s => readTC e s) s

/-- The drain loop of `i2c_reset`: `while (i2c.SR1 && i2c.SR2) ;`
with C++ short-circuit semantics (SR2 is read only when the SR1 read
was nonzero).  The loop has no iteration bound in the source, so it is
modelled with explicit fuel: `none` means the loop was still running
when the fuel ran out. -/
def reset_drain (fuel : Nat) (e : Env) (s : Regs) : Option Regs :=
  match fuel with
  | 0 => none
  | n + 1 =>
    let (a, s) := readSR1 e s
    if a == 0 then some s
    else
      let (b, s) := readSR2 e s
      if b == 0 then some s
      else reset_drain n e s

/-- Clear the bits of `m` in `v`; for `v < 2^32` this is the C++
`v & ~m` on a 32-bit register. -/
def bclear (v m : Nat) : Nat := v - (v &&& m)

/-- The `i2c_reset::operator()` body: substitute the own address from
OAR1 when the argument is zero (with the source's `uint8_t`
truncation), disable PE, assert SWRST, drain the status registers,
deassert SWRST and PE, then program CR2 (OR of the MHz value), TRISE,
OAR1, OAR2 and CCR, with the source's `uint16_t` truncations.
`pclk1` is the peripheral clock in Hz.  Returns `none` if the drain
loop never exits within `fuel`. -/
def i2c_reset (fuel : Nat) (e : Env) (s : Regs) (own_addr : Nat) (pclk1 : Nat) :
    Option Regs :=
  let own : Nat := own_addr % 256
  let own : Nat := if own == 0 then (s.oar1 >>> 1) % 256 else own
  let s := writeCR1 (bclear s.cr1 PE) s
  let s := writeCR1 (s.cr1 ||| SWRST) s
  match reset_drain fuel e s with
  | none => none
  | some s =>
    let s := writeCR1 (bclear s.cr1 SWRST) s
    let s := writeCR1 (bclear s.cr1 PE) s
    let freqrange : Nat := (pclk1 / 1000000) % 65536
    let s := writeCR2 (s.cr2 ||| freqrange) s
    let s := writeTRISE (freqrange + 1) s
    let s := writeOAR1 (own <<< 1) s
    let s := writeOAR2 0 s
    let s := writeCCR ((pclk1 / (i2c_clock_speed * 2)) % 65536) s
    some s

/-- Modelled from the spec: the `I2C_RESULT_CODE` enumeration is
declared in `i2c.hpp`, which is not among the sources; the spec
(section 3) describes it as a closed enumeration listing success
first, so in the underlying C++ enum the success code has value 0 and
every other code is nonzero.  The constructors are the enumerators
used by `i2c.cpp`. -/
inductive I2C_RESULT_CODE where
  | I2C_RESULT_SUCCESS
  | I2C_BUS_BUSY
  | I2C_DEVICE_ERROR_CONDITION
  | I2C_POLLING_MASTER_RECEIVER_RECV_TIMEOUT
  | I2C_POLLING_MASTER_RECEIVER_ADDRESS_FAILED
  | I2C_POLLING_MASTER_RECEIVER_START_FAILED
  | I2C_POLLING_MASTER_TRANSMITTER_START_FAILED
  | I2C_POLLING_MASTER_TRANSMITTER_SEND_TIMEOUT
  | I2C_POLLING_MASTER_TRANSMITTER_ADDRESS_FAILED
  | I2C_DMA_MASTER_TRANSMITTER_HAS_NO_DMA
  | I2C_DMA_MASTER_TRANSMITTER_START_FAILED
  | I2C_DMA_MASTER_TRANSMITTER_ADDRESS_FAILED
  | I2C_DMA_MASTER_TRANSMITTER_SEND_TIMEOUT
  | I2C_DMA_MASTER_RECEIVER_HAS_NO_DMA
  | I2C_DMA_MASTER_RECEIVER_START_FAILED
  | I2C_DMA_MASTER_RECEIVER_ADDRESS_FAILED
  | I2C_DMA_MASTER_RECEIVER_RECV_TIMEOUT
  deriving DecidableEq, Repr

export I2C_RESULT_CODE (I2C_RESULT_SUCCESS I2C_BUS_BUSY I2C_DEVICE_ERROR_CONDITION
  I2C_POLLING_MASTER_RECEIVER_RECV_TIMEOUT I2C_POLLING_MASTER_RECEIVER_ADDRESS_FAILED
  I2C_POLLING_MASTER_RECEIVER_START_FAILED I2C_POLLING_MASTER_TRANSMITTER_START_FAILED
  I2C_POLLING_MASTER_TRANSMITTER_SEND_TIMEOUT I2C_POLLING_MASTER_TRANSMITTER_ADDRESS_FAILED
  I2C_DMA_MASTER_TRANSMITTER_HAS_NO_DMA I2C_DMA_MASTER_TRANSMITTER_START_FAILED
  I2C_DMA_MASTER_TRANSMITTER_ADDRESS_FAILED I2C_DMA_MASTER_TRANSMITTER_SEND_TIMEOUT
  I2C_DMA_MASTER_RECEIVER_HAS_NO_DMA I2C_DMA_MASTER_RECEIVER_START_FAILED
  I2C_DMA_MASTER_RECEIVER_ADDRESS_FAILED I2C_DMA_MASTER_RECEIVER_RECV_TIMEOUT)

/-- The C++ implicit conversion of an `I2C_RESULT_CODE` value to
`bool` (nonzero means true); with the success enumerator at value 0
this is inequality with the success code. -/
def cppBool (c : I2C_RESULT_CODE) : Bool := c != I2C_RESULT_SUCCESS

/-- The `i2c_start::operator()`: set the START bit in CR1 and wait for
the start-bit-sent flag in SR1. -/
def i2c_start (e : Env) (s : Regs) : Bool × Regs :=
  let s := writeCR1 (s.cr1 ||| START) s
  waitSB e s

/-- The `i2c_address<Transmitter>::operator()`: write the address with
the direction bit clear to DR, then wait for the address-sent flag. -/
def i2c_address_t (e : Env) (s : Regs) (address : Nat) : Bool × Regs :=
  let s := writeDR ((address % 256) <<< 1) s
  waitADDR e s

/-- The `i2c_address<Receiver>::operator()`: write the address with
the direction bit set to DR, then wait for the address-sent flag. -/
def i2c_address_r (e : Env) (s : Regs) (address : Nat) : Bool × Regs :=
  let s := writeDR (((address % 256) <<< 1) ||| 1) s
  waitADDR e s

/-- `i2c_address<_>::clear`: read the combined status word (reading
SR2 after SR1 clears the ADDR flag on the hardware) and discard it. -/
def i2c_address_clear (e : Env) (s : Regs) : Regs :=
  (i2c_status_status e s).2

/-- The second half of the `scoped_i2c_start` destructor, from
`bitset::reset(CR2, LAST)` onwards: clear the LAST bit of CR2, then
if SR1 shows an error condition either run a full `i2c_reset` (when
acknowledge-failure co-occurs with the busy/master SR2 bits) or clear
the error bits in SR1.  Returns `none` if the inner reset's drain
loop exceeds `fuel`. -/
def scoped_exit_tail (fuel : Nat) (e : Env) (pclk1 : Nat) (s : Regs) : Option Regs :=
  let s := writeCR2 (bclear s.cr2 LAST) s
  let (v1, s) := readSR1 e s
  if v1 &&& error_condition != 0 then
    let (v2, s) := readSR1 e s
    if v2 &&& AF != 0 then
      let (v3, s) := readSR2 e s
      if v3 &&& (BUSY ||| MSL) != 0 then
        i2c_reset fuel e s 0 pclk1
      else
        let (v4, s) := readSR1 e s
        some (writeSR1 (bclear v4 error_condition) s)
    else
      let (v4, s) := readSR1 e s
      some (writeSR1 (bclear v4 error_condition) s)
  else
    some s

/-- The destructor of `scoped_i2c_start`, run on every exit path of
the transfer engines: read `SR1 | (SR2 << 16)`, then if the start had
succeeded request a stop condition and wait for bus-idle, then run
`scoped_exit_tail` (clear LAST, resolve error conditions). -/
def scoped_i2c_start_exit (fuel : Nat) (e : Env) (pclk1 : Nat) (success : Bool)
    (s : Regs) : Option Regs :=
  let (_, s) := readSR1 e s
  let (_, s) := readSR2 e s
  let s :=
    if success then
      let s := writeCR1 (s.cr1 ||| STOP) s
      (waitNotBusy e s).2
    else s
  scoped_exit_tail fuel e pclk1 s

/-- One step of `i2c_transmitter::operator<<`: write the byte to DR
and wait on the source's predicate `_.SR1 & TxE | BTF`, which by C++
precedence is `(SR1 & TxE) | BTF`. -/
def i2c_transmitter_put (e : Env) (s : Regs) (d : Nat) : Bool × Regs :=
  let s := writeDR d s
  waitTxE e s

/-- The `i2c_ready_wait::operator()`: clear stale error bits (fail
with the device-error code if they do not clear), wait for bus-idle,
and if the bus stays busy while error bits are set together with the
busy/master SR2 bits run a full reset; the result is bus-busy or
success according to a final busy poll.  `none` if the inner reset's
drain loop exceeds `fuel`. -/
def i2c_ready_wait (fuel : Nat) (e : Env) (s : Regs) (own_addr : Nat) (pclk1 : Nat) :
    Option (I2C_RESULT_CODE × Regs) :=
  let (v1, s) := readSR1 e s
  let step2 : Option (Option I2C_RESULT_CODE × Regs) :=
    if v1 &&& error_condition != 0 then
      let (v2, s) := readSR1 e s
      let s := writeSR1 (bclear v2 error_condition) s
      let (v3, s) := readSR1 e s
      if v3 &&& error_condition != 0 then some (some I2C_DEVICE_ERROR_CONDITION, s)
      else some (none, s)
    else some (none, s)
  match step2 with
  | none => none
  | some (some c, s) => some (c, s)
  | some (none, s) =>
    let (ok, s) := condition_wait e.bound
      (fun s => let (b, s) := i2c_status_busy e s; (!b, s)) s
    let after : Option Regs :=
      if ok then some s
      else
        let (w1, s) := readSR1 e s
        if w1 &&& error_condition != 0 then
          let (w2, s) := readSR2 e s
          if w2 &&& (BUSY ||| MSL) != 0 then i2c_reset fuel e s own_addr pclk1
          else some s
        else some s
    match after with
    | none => none
    | some s =>
      let (b, s) := i2c_status_busy e s
      some (if b then I2C_BUS_BUSY else I2C_RESULT_SUCCESS, s)

/-- The `while (size >= 3)` drain loop of the primary (size ≥ 3)
`polling_master_receiver`: wait for byte-ready-or-transfer-finished,
and if a fresh SR1 read shows RxNE, read DR into the buffer.  The
loop has no intrinsic bound (an iteration whose wait succeeds on BTF
alone does not decrease `size`), so it carries explicit fuel; `none`
means the loop was still running when the fuel ran out.  The result
flag is false when the wait timed out (the receiver then returns the
receive-timeout code). -/
def recv_drain (fuel : Nat) (e : Env) (s : Regs) (buf : List Nat) (idx size : Nat) :
    Option (Bool × Regs × List Nat × Nat × Nat) :=
  if size < 3 then some (true, s, buf, idx, size)
  else match fuel with
  | 0 => none
  | n + 1 =>
    let (ok, s) := waitRxNEorBTF e s
    if ok then
      let (v, s) := readSR1 e s
      if v &&& RxNE != 0 then
        let (d, s) := readDR e s
        recv_drain n e s (buf.set idx d) (idx + 1) (size - 1)
      else recv_drain n e s buf idx size
    else some (false, s, buf, idx, size)

/-- The primary-template `polling_master_receiver<N>::operator()`
(instantiated by the facade for sizes above 3): constructor sets PE;
scoped start; receiver address phase; ADDR clear; the always-false
wait on `!_.SR1 & ADDR` (C++ precedence makes the predicate
constantly false, so it merely burns the iteration budget); the drain
loop down to 2 remaining bytes; then wait BTF, clear ACK, request
STOP, read byte N-1; then wait RxNE and read the last byte.  The
scoped-start destructor runs on every exit path.  Returns the result
code together with the final register state and buffer; `none` on
fuel exhaustion in an unbounded loop. -/
def polling_master_receiver_ge3 (fuel : Nat) (e : Env) (pclk1 : Nat) (s : Regs)
    (address : Nat) (buf : List Nat) (size : Nat) :
    Option (I2C_RESULT_CODE × Regs × List Nat) :=
  let s := writeCR1 (s.cr1 ||| PE) s
  let (started, s) := i2c_start e s
  let body : Option (I2C_RESULT_CODE × Regs × List Nat) :=
    if started then
      let (aok, s) := i2c_address_r e s address
      if aok then
        let s := i2c_address_clear e s
        let (_, s) := waitBogus e s
        match recv_drain fuel e s buf 0 size with
        | none => none
        | some (false, s, buf, _, _) =>
          some (I2C_POLLING_MASTER_RECEIVER_RECV_TIMEOUT, s, buf)
        | some (true, s, buf, idx, size) =>
          let (ok, s) := waitBTF e s
          if ok then
            let s := writeCR1 (bclear s.cr1 ACK) s
            let s := writeCR1 (s.cr1 ||| STOP) s
            let (d, s) := readDR e s
            let buf := buf.set idx d
            let idx := idx + 1
            let _ := size - 1
            let (ok2, s) := waitRxNE e s
            if ok2 then
              let (d2, s) := readDR e s
              some (I2C_RESULT_SUCCESS, s, buf.set idx d2)
            else some (I2C_POLLING_MASTER_RECEIVER_RECV_TIMEOUT, s, buf)
          else some (I2C_POLLING_MASTER_RECEIVER_RECV_TIMEOUT, s, buf)
      else some (I2C_POLLING_MASTER_RECEIVER_ADDRESS_FAILED, s, buf)
    else some (I2C_POLLING_MASTER_TRANSMITTER_START_FAILED, s, buf)
  match body with
  | none => none
  | some (code, s, buf) =>
    match scoped_i2c_start_exit fuel e pclk1 started s with
    | none => none
    | some s => some (code, s, buf)

/-- The `polling_master_receiver<2>` specialization: set POS, clear
ADDR, clear ACK, wait BTF, request STOP, read both bytes
back-to-back, wait for bus-idle and clear POS; success iff both bytes
were read.  A failed address phase falls through to the
transmitter-start-failed return of the source.  The scoped-start
destructor runs on every exit path. -/
def polling_master_receiver_2 (fuel : Nat) (e : Env) (pclk1 : Nat) (s : Regs)
    (address : Nat) (buf : List Nat) (size : Nat) :
    Option (I2C_RESULT_CODE × Regs × List Nat) :=
  let s := writeCR1 (s.cr1 ||| PE) s
  let (started, s) := i2c_start e s
  let body : I2C_RESULT_CODE × Regs × List Nat :=
    if started then
      let (aok, s) := i2c_address_r e s address
      if aok then
        let s := writeCR1 (s.cr1 ||| POS) s
        let s := i2c_address_clear e s
        let s := writeCR1 (bclear s.cr1 ACK) s
        let (ok, s) := waitBTF e s
        if ok then
          let s := writeCR1 (s.cr1 ||| STOP) s
          let (d, s) := readDR e s
          let buf := buf.set 0 d
          let size := size - 1
          let (ok2, s) := waitRxNEorBTF e s
          if ok2 then
            let (d2, s) := readDR e s
            let buf := buf.set 1 d2
            let size := size - 1
            let (ok3, s) := waitNotBusy e s
            let s := if ok3 then writeCR1 (bclear s.cr1 POS) s else s
            (if size == 0 then I2C_RESULT_SUCCESS
             else I2C_POLLING_MASTER_RECEIVER_RECV_TIMEOUT, s, buf)
          else
            (if size == 0 then I2C_RESULT_SUCCESS
             else I2C_POLLING_MASTER_RECEIVER_RECV_TIMEOUT, s, buf)
        else
          (if size == 0 then I2C_RESULT_SUCCESS
           else I2C_POLLING_MASTER_RECEIVER_RECV_TIMEOUT, s, buf)
      else (I2C_POLLING_MASTER_TRANSMITTER_START_FAILED, s, buf)
    else (I2C_POLLING_MASTER_TRANSMITTER_START_FAILED, s, buf)
  match body with
  | (code, s, buf) =>
    match scoped_i2c_start_exit fuel e pclk1 started s with
    | none => none
    | some s => some (code, s, buf)

/-- The `polling_master_receiver<1>` specialization: clear ACK, clear
ADDR, request STOP before any data arrives, wait RxNE and read the
single byte; success iff the byte arrived.  The scoped-start
destructor runs on every exit path. -/
def polling_master_receiver_1 (fuel : Nat) (e : Env) (pclk1 : Nat) (s : Regs)
    (address : Nat) (buf : List Nat) (size : Nat) :
    Option (I2C_RESULT_CODE × Regs × List Nat) :=
  let s := writeCR1 (s.cr1 ||| PE) s
  let (started, s) := i2c_start e s
  let body : I2C_RESULT_CODE × Regs × List Nat :=
    if started then
      let (aok, s) := i2c_address_r e s address
      if aok then
        let s := writeCR1 (bclear s.cr1 ACK) s
        let s := i2c_address_clear e s
        let s := writeCR1 (s.cr1 ||| STOP) s
        let (ok, s) := waitRxNE e s
        if ok then
          let (d, s) := readDR e s
          let buf := buf.set 0 d
          let size := size - 1
          (if size == 0 then I2C_RESULT_SUCCESS
           else I2C_POLLING_MASTER_RECEIVER_RECV_TIMEOUT, s, buf)
        else
          (if size == 0 then I2C_RESULT_SUCCESS
           else I2C_POLLING_MASTER_RECEIVER_RECV_TIMEOUT, s, buf)
      else (I2C_POLLING_MASTER_RECEIVER_ADDRESS_FAILED, s, buf)
    else (I2C_POLLING_MASTER_RECEIVER_START_FAILED, s, buf)
  match body with
  | (code, s, buf) =>
    match scoped_i2c_start_exit fuel e pclk1 started s with
    | none => none
    | some s => some (code, s, buf)

/-- The per-byte transmit loop of `i2c::write`: `while (size)` write
each byte through `i2c_transmitter::operator<<`, decrementing on
success and breaking on failure; returns the number of bytes left
unaccepted together with the register state. -/
def transmit_loop (e : Env) (s : Regs) : List Nat → Nat × Regs
  | [] => (0, s)
  | d :: rest =>
    let (ok, s') := i2c_transmitter_put e s d
    if ok then transmit_loop e s' rest
    else (rest.length + 1, s')

/-- The start/address/data phase and destructor sequence of
`dma_master_transfer::operator()`, from the scoped start onwards:
start, transmitter address phase, ADDR clear, bounded wait on the DMA
transfer-complete flag; then the destructors, in reverse construction
order: clear DMAEN, disable the channel, and the scoped-start exit.
A start failure returns the address-failed code, exactly as in the
source. -/
def dma_transfer_run (fuel : Nat) (e : Env) (pclk1 : Nat) (s : Regs)
    (address : Nat) : Option (I2C_RESULT_CODE × Regs) :=
  let (started, s) := i2c_start e s
  let body : I2C_RESULT_CODE × Regs :=
    if started then
      let (aok, s) := i2c_address_t e s address
      if aok then
        let s := i2c_address_clear e s
        let (ok, s) := waitTC e s
        if ok then (I2C_RESULT_SUCCESS, s)
        else (I2C_DMA_MASTER_TRANSMITTER_SEND_TIMEOUT, s)
      else (I2C_DMA_MASTER_TRANSMITTER_ADDRESS_FAILED, s)
    else (I2C_DMA_MASTER_TRANSMITTER_ADDRESS_FAILED, s)
  match body with
  | (code, s) =>
    let s := writeCR2 (bclear s.cr2 DMAEN) s
    let s := emitEvent Event.chanDisable s
    match scoped_i2c_start_exit fuel e pclk1 started s with
    | none => none
    | some s => some (code, s)

/-- The `dma_master_transfer::operator()`: constructor sets ACK and
PE; the transmit buffer is bound to the DMA channel with length 1
when the requested size is 1 and size+1 otherwise (the source's
off-by-one workaround); the channel is enabled and the CR2
DMA-request bit set as scoped resources; then `dma_transfer_run`. -/
def dma_master_transfer (fuel : Nat) (e : Env) (pclk1 : Nat) (s : Regs)
    (address : Nat) (size : Nat) : Option (I2C_RESULT_CODE × Regs) :=
  let s := writeCR1 (s.cr1 ||| (ACK ||| PE)) s
  let s := emitEvent (Event.bindTx (if size == 1 then 1 else size + 1)) s
  let s := emitEvent Event.chanEnable s
  let s := writeCR2 (s.cr2 ||| DMAEN) s
  dma_transfer_run fuel e pclk1 s address

/-- The start/address/data phase and destructor sequence of
`dma_master_receiver::operator()`, from the scoped start onwards:
start, receiver address phase, ADDR clear, bounded wait on the DMA
transfer-complete flag; then the destructors, in reverse construction
order: the scoped-start exit first, then clear DMAEN, then disable
the channel. -/
def dma_receive_run (fuel : Nat) (e : Env) (pclk1 : Nat) (s : Regs)
    (address : Nat) : Option (I2C_RESULT_CODE × Regs) :=
  let (started, s) := i2c_start e s
  let body : I2C_RESULT_CODE × Regs :=
    if started then
      let (aok, s) := i2c_address_r e s address
      if aok then
        let s := i2c_address_clear e s
        let (ok, s) := waitTC e s
        if ok then (I2C_RESULT_SUCCESS, s)
        else (I2C_DMA_MASTER_RECEIVER_RECV_TIMEOUT, s)
      else (I2C_DMA_MASTER_RECEIVER_ADDRESS_FAILED, s)
    else (I2C_DMA_MASTER_RECEIVER_START_FAILED, s)
  match body with
  | (code, s) =>
    match scoped_i2c_start_exit fuel e pclk1 started s with
    | none => none
    | some s =>
      let s := writeCR2 (bclear s.cr2 DMAEN) s
      let s := emitEvent Event.chanDisable s
      some (code, s)

/-- The `dma_master_receiver::operator()`: constructor sets PE; the
receive buffer is bound with exactly the requested length; the
channel is enabled and DMAEN set as scoped resources; the LAST bit is
set before the scoped start; then `dma_receive_run`. -/
def dma_master_receiver (fuel : Nat) (e : Env) (pclk1 : Nat) (s : Regs)
    (address : Nat) (size : Nat) : Option (I2C_RESULT_CODE × Regs) :=
  let s := writeCR1 (s.cr1 ||| PE) s
  let s := emitEvent (Event.bindRx size) s
  let s := emitEvent Event.chanEnable s
  let s := writeCR2 (s.cr2 ||| DMAEN) s
  let s := writeCR2 (s.cr2 ||| LAST) s
  dma_receive_run fuel e pclk1 s address

/-- One bus-controller instance: its peripheral registers, configured
own address, last result code, and whether a DMA channel is attached
for each direction (the source's global per-instance channel slots,
observed through the same null checks `i2c::dma_transfer` and
`i2c::dma_receive` perform). -/
structure I2CInst where
  regs : Regs
  own_addr : Nat
  result_code : I2C_RESULT_CODE
  hasTxDma : Bool
  hasRxDma : Bool
  deriving DecidableEq, Repr

/-- The facade `i2c::read`: readiness check (its code stored as the
last result; failure returns false), then dispatch on the size —
`size > 3` to the primary receiver, `size == 2` and `size == 1` to
their specializations; any other size (3 or 0) runs no receiver and
the readiness code remains the stored result.  Returns the boolean
`result_code_ == I2C_RESULT_SUCCESS` together with the instance and
buffer. -/
def i2c_read (fuel : Nat) (e : Env) (pclk1 : Nat) (f : I2CInst)
    (address : Nat) (buf : List Nat) (size : Nat) :
    Option (Bool × I2CInst × List Nat) :=
  match i2c_ready_wait fuel e f.regs f.own_addr pclk1 with
  | none => none
  | some (rc, s) =>
    if rc != I2C_RESULT_SUCCESS then
      some (false, { f with regs := s, result_code := rc }, buf)
    else if size > 3 then
      match polling_master_receiver_ge3 fuel e pclk1 s address buf size with
      | none => none
      | some (code, s, buf) =>
        some (code == I2C_RESULT_SUCCESS,
              { f with regs := s, result_code := code }, buf)
    else if size == 2 then
      match polling_master_receiver_2 fuel e pclk1 s address buf size with
      | none => none
      | some (code, s, buf) =>
        some (code == I2C_RESULT_SUCCESS,
              { f with regs := s, result_code := code }, buf)
    else if size == 1 then
      match polling_master_receiver_1 fuel e pclk1 s address buf size with
      | none => none
      | some (code, s, buf) =>
        some (code == I2C_RESULT_SUCCESS,
              { f with regs := s, result_code := code }, buf)
    else
      some (rc == I2C_RESULT_SUCCESS, { f with regs := s, result_code := rc }, buf)

/-- The facade `i2c::write`: set ACK and PE, readiness check (failure
stored and returned), scoped start, transmitter address phase, the
per-byte transmit loop, a stop request, and the result code chosen by
whether every byte was accepted. -/
def i2c_write (fuel : Nat) (e : Env) (pclk1 : Nat) (f : I2CInst)
    (address : Nat) (data : List Nat) : Option (Bool × I2CInst) :=
  let s := writeCR1 (f.regs.cr1 ||| (ACK ||| PE)) f.regs
  match i2c_ready_wait fuel e s f.own_addr pclk1 with
  | none => none
  | some (rc, s) =>
    if rc != I2C_RESULT_SUCCESS then
      some (false, { f with regs := s, result_code := rc })
    else
      let (started, s) := i2c_start e s
      let body : I2C_RESULT_CODE × Regs :=
        if started then
          let (aok, s) := i2c_address_t e s address
          if aok then
            let (remaining, s) := transmit_loop e s data
            let s := writeCR1 (s.cr1 ||| STOP) s
            (if remaining == 0 then I2C_RESULT_SUCCESS
             else I2C_POLLING_MASTER_TRANSMITTER_SEND_TIMEOUT, s)
          else (I2C_POLLING_MASTER_TRANSMITTER_ADDRESS_FAILED, s)
        else (I2C_POLLING_MASTER_TRANSMITTER_START_FAILED, s)
      match body with
      | (code, s) =>
        match scoped_i2c_start_exit fuel e pclk1 started s with
        | none => none
        | some s =>
          some (code == I2C_RESULT_SUCCESS, { f with regs := s, result_code := code })

/-- The facade `i2c::dma_transfer`: fail immediately with the
transmitter no-DMA code when no transmit channel is attached (no
register access at all); otherwise readiness check, then the DMA
transmit engine, its code stored as the last result. -/
def i2c_dma_transfer (fuel : Nat) (e : Env) (pclk1 : Nat) (f : I2CInst)
    (address : Nat) (size : Nat) : Option (Bool × I2CInst) :=
  if !f.hasTxDma then
    some (false, { f with result_code := I2C_DMA_MASTER_TRANSMITTER_HAS_NO_DMA })
  else
    match i2c_ready_wait fuel e f.regs f.own_addr pclk1 with
    | none => none
    | some (rc, s) =>
      if rc != I2C_RESULT_SUCCESS then
        some (false, { f with regs := s, result_code := rc })
      else
        match dma_master_transfer fuel e pclk1 s address size with
        | none => none
        | some (code, s) =>
          some (code == I2C_RESULT_SUCCESS, { f with regs := s, result_code := code })

/-- The facade `i2c::dma_receive`: fail immediately with the receiver
no-DMA code when no receive channel is attached (no register access at
all); otherwise readiness check; then, for `size == 1`, the source
returns the single-byte polling receiver's result code implicitly
converted to `bool` without storing it in `result_code_`; for other
sizes the DMA receive engine runs and its code is stored. -/
def i2c_dma_receive (fuel : Nat) (e : Env) (pclk1 : Nat) (f : I2CInst)
    (address : Nat) (buf : List Nat) (size : Nat) :
    Option (Bool × I2CInst × List Nat) :=
  if !f.hasRxDma then
    some (false, { f with result_code := I2C_DMA_MASTER_RECEIVER_HAS_NO_DMA }, buf)
  else
    match i2c_ready_wait fuel e f.regs f.own_addr pclk1 with
    | none => none
    | some (rc, s) =>
      if rc != I2C_RESULT_SUCCESS then
        some (false, { f with regs := s, result_code := rc }, buf)
      else if size == 1 then
        match polling_master_receiver_1 fuel e pclk1 s address buf size with
        | none => none
        | some (code, s, buf) =>
          some (cppBool code, { f with regs := s, result_code := rc }, buf)
      else
        match dma_master_receiver fuel e pclk1 s address size with
        | none => none
        | some (code, s) =>
          some (code == I2C_RESULT_SUCCESS,
                { f with regs := s, result_code := code }, buf)

/-- SR1 value of the cooperative register model: every master-mode
handshake flag the polling engine waits on (SB, ADDR, BTF, RxNE) is
set and no error bit is set. -/
def coopSR1 : Nat := SB ||| ADDR ||| BTF ||| RxNE

/-- The cooperative register model of spec section 8: every
handshake predicate is satisfied at the first poll (SR1 constantly
`coopSR1`, SR2 constantly 0, DMA transfer-complete constantly true)
and the `i`-th data-register read delivers `bytes i`. -/
def coopEnv (bytes : Nat → Nat) : Env :=
  { sr1 := fun _ => coopSR1
    sr2 := fun _ => 0
    dr := bytes
    tc := fun _ => true
    bound := 1 }

/-- All-zero initial register state with an empty trace. -/
def regs0 : Regs :=
  { cr1 := 0, cr2 := 0, oar1 := 0, oar2 := 0, ccr := 0, trise := 0
    nsr1 := 0, nsr2 := 0, ndr := 0, ntc := 0, trace := [] }

/-- A facade instance over `regs0` with both DMA directions attached. -/
def inst0 : I2CInst :=
  { regs := regs0, own_addr := 3, result_code := I2C_RESULT_SUCCESS
    hasTxDma := true, hasRxDma := true }

/-- A facade instance with neither DMA direction attached. -/
def instNoDma : I2CInst :=
  { regs := regs0, own_addr := 3, result_code := I2C_RESULT_SUCCESS
    hasTxDma := false, hasRxDma := false }

/-- Register model with constant status registers: every SR1 read
returns `v1`, every SR2 read returns `v2`; DR reads 0, DMA complete,
wait budget 1. -/
def constEnv (v1 v2 : Nat) : Env :=
  { sr1 := fun _ => v1, sr2 := fun _ => v2, dr := fun _ => 0
    tc := fun _ => true, bound := 1 }

/-- Concrete byte stream for closed evaluations: byte `i` is `16 + i`. -/
def demoBytes (i : Nat) : Nat := 16 + i

/-- Register model where the bus idles and start/address complete but
no data-phase flag ever appears: SR1 constantly `SB ||| ADDR` (TxE and
BTF never set), SR2 constantly 0. -/
def naEnv : Env := constEnv (SB ||| ADDR) 0

/-- The events the drain loop of the size ≥ 3 receiver appends per
iteration under the cooperative model: the wait's SR1 read, the RxNE
check's SR1 read, and the DR read of the next byte; `d` is the index
of the first byte still to be read, `k` the number of iterations. -/
def drainT (bytes : Nat → Nat) (d k : Nat) : List Event :=
  match k with
  | 0 => []
  | j + 1 =>
    Event.rSR1 coopSR1 :: Event.rSR1 coopSR1 :: Event.rDR (bytes d)
      :: drainT bytes (d + 1) j

/-- The buffer after `k` sequential one-byte writes starting at `idx`
with byte stream position `d`. -/
def setSeq (bytes : Nat → Nat) (buf : List Nat) (idx d k : Nat) : List Nat :=
  match k with
  | 0 => buf
  | j + 1 => setSeq bytes (buf.set idx (bytes d)) (idx + 1) (d + 1) j

/-- Number of data-register reads in a trace. -/
def countRDR (t : List Event) : Nat :=
  t.countP (fun ev => match ev with | Event.rDR _ => true | _ => false)

end stm32f103

namespace stm32f103

lemma lor_land_right (a b c : Nat) : (a ||| b) &&& c = (a &&& c) ||| (b &&& c) := by
  apply Nat.eq_of_testBit_eq
  intro i
  simp [Nat.testBit_lor, Nat.testBit_land, Bool.and_or_distrib_right]

lemma coopEnv_sr1 (bytes : Nat → Nat) (k : Nat) : (coopEnv bytes).sr1 k = coopSR1 := rfl

lemma coopEnv_sr2 (bytes : Nat → Nat) (k : Nat) : (coopEnv bytes).sr2 k = 0 := rfl

lemma coopEnv_dr (bytes : Nat → Nat) (k : Nat) : (coopEnv bytes).dr k = bytes k := rfl

lemma coopEnv_bound (bytes : Nat → Nat) : (coopEnv bytes).bound = 1 := rfl

lemma coop_sb : (coopSR1 &&& SB != 0) = true := by decide

lemma coop_addr : (coopSR1 &&& ADDR != 0) = true := by decide

lemma coop_rxne_btf : (coopSR1 &&& (RxNE ||| BTF) != 0) = true := by decide

lemma coop_btf : (coopSR1 &&& BTF != 0) = true := by decide

lemma coop_rxne : (coopSR1 &&& RxNE != 0) = true := by decide

lemma coop_txe : ((coopSR1 &&& TxE ||| BTF) != 0) = true := by decide

lemma coop_nz : (coopSR1 == 0) = false := by decide

lemma coop_stopf : (coopSR1 &&& STOPF == 0) = true := by decide

lemma coop_err : (coopSR1 &&& error_condition != 0) = false := by decide

lemma zero_busy : ((0 : Nat) &&& BUSY == 0) = true := by decide

lemma zero_busy_ne : ((0 : Nat) &&& BUSY != 0) = false := by decide

lemma coop_waitSB (bytes : Nat → Nat) (s : Regs) :
    waitSB (coopEnv bytes) s =
      (true, { s with nsr1 := s.nsr1 + 1, trace := s.trace ++ [Event.rSR1 coopSR1] }) := by
  simp [waitSB, condition_wait, readSR1, coopEnv, coop_sb]

lemma coop_waitADDR (bytes : Nat → Nat) (s : Regs) :
    waitADDR (coopEnv bytes) s =
      (true, { s with nsr1 := s.nsr1 + 1, trace := s.trace ++ [Event.rSR1 coopSR1] }) := by
  simp [waitADDR, condition_wait, readSR1, coopEnv, coop_addr]

lemma coop_waitBogus (bytes : Nat → Nat) (s : Regs) :
    waitBogus (coopEnv bytes) s =
      (false, { s with nsr1 := s.nsr1 + 1, trace := s.trace ++ [Event.rSR1 coopSR1] }) := by
  simp [waitBogus, condition_wait, readSR1, coopEnv, coop_nz]

lemma coop_waitRxNEorBTF (bytes : Nat → Nat) (s : Regs) :
    waitRxNEorBTF (coopEnv bytes) s =
      (true, { s with nsr1 := s.nsr1 + 1, trace := s.trace ++ [Event.rSR1 coopSR1] }) := by
  simp [waitRxNEorBTF, condition_wait, readSR1, coopEnv, coop_rxne_btf]

lemma coop_waitBTF (bytes : Nat → Nat) (s : Regs) :
    waitBTF (coopEnv bytes) s =
      (true, { s with nsr1 := s.nsr1 + 1, trace := s.trace ++ [Event.rSR1 coopSR1] }) := by
  simp [waitBTF, condition_wait, readSR1, coopEnv, coop_btf]

lemma coop_waitRxNE (bytes : Nat → Nat) (s : Regs) :
    waitRxNE (coopEnv bytes) s =
      (true, { s with nsr1 := s.nsr1 + 1, trace := s.trace ++ [Event.rSR1 coopSR1] }) := by
  simp [waitRxNE, condition_wait, readSR1, coopEnv, coop_rxne]

lemma coop_waitNotBusy (bytes : Nat → Nat) (s : Regs) :
    waitNotBusy (coopEnv bytes) s =
      (true, { s with nsr2 := s.nsr2 + 1, trace := s.trace ++ [Event.rSR2 0] }) := by
  simp [waitNotBusy, condition_wait, readSR2, coopEnv, zero_busy]

lemma coop_waitTxE (bytes : Nat → Nat) (s : Regs) :
    waitTxE (coopEnv bytes) s =
      (true, { s with nsr1 := s.nsr1 + 1, trace := s.trace ++ [Event.rSR1 coopSR1] }) := by
  simp [waitTxE, condition_wait, readSR1, coopEnv, coop_txe]

lemma coop_waitTC (bytes : Nat → Nat) (s : Regs) :
    waitTC (coopEnv bytes) s = (true, { s with ntc := s.ntc + 1 }) := by
  simp [waitTC, condition_wait, readTC, coopEnv]

lemma coop_start (bytes : Nat → Nat) (s : Regs) :
    i2c_start (coopEnv bytes) s =
      (true, { s with cr1 := s.cr1 ||| START, nsr1 := s.nsr1 + 1, trace := s.trace ++ [Event.wCR1 (s.cr1 ||| START), Event.rSR1 coopSR1] }) := by
  rw [i2c_start, writeCR1, coop_waitSB]
  simp

lemma coop_address_r (bytes : Nat → Nat) (s : Regs) (address : Nat) :
    i2c_address_r (coopEnv bytes) s address =
      (true, { s with nsr1 := s.nsr1 + 1, trace := s.trace ++ [Event.wDR (((address % 256) <<< 1) ||| 1),
                                    Event.rSR1 coopSR1] }) := by
  rw [i2c_address_r, writeDR, coop_waitADDR]
  simp

lemma coop_address_t (bytes : Nat → Nat) (s : Regs) (address : Nat) :
    i2c_address_t (coopEnv bytes) s address =
      (true, { s with nsr1 := s.nsr1 + 1, trace := s.trace ++ [Event.wDR ((address % 256) <<< 1),
                                    Event.rSR1 coopSR1] }) := by
  rw [i2c_address_t, writeDR, coop_waitADDR]
  simp

lemma coop_status (bytes : Nat → Nat) (s : Regs) :
    i2c_status_status (coopEnv bytes) s =
      ((0 <<< 16) ||| coopSR1,
       { s with nsr1 := s.nsr1 + 2, nsr2 := s.nsr2 + 1, trace := s.trace ++ [Event.rSR1 coopSR1, Event.rSR2 0, Event.rSR1 coopSR1] }) := by
  rw [i2c_status_status]
  simp [readSR1, readSR2, coopEnv, coop_stopf]

lemma coop_clear (bytes : Nat → Nat) (s : Regs) :
    i2c_address_clear (coopEnv bytes) s =
      { s with nsr1 := s.nsr1 + 2, nsr2 := s.nsr2 + 1, trace := s.trace ++ [Event.rSR1 coopSR1, Event.rSR2 0, Event.rSR1 coopSR1] } := by
  rw [i2c_address_clear, coop_status]

lemma coop_busy (bytes : Nat → Nat) (s : Regs) :
    i2c_status_busy (coopEnv bytes) s =
      (false, { s with nsr2 := s.nsr2 + 1, trace := s.trace ++ [Event.rSR2 0] }) := by
  simp [i2c_status_busy, readSR2, coopEnv, zero_busy_ne]

lemma coop_ready (bytes : Nat → Nat) (fuel : Nat) (s : Regs) (own pclk : Nat) :
    i2c_ready_wait fuel (coopEnv bytes) s own pclk =
      some (I2C_RESULT_SUCCESS,
        { s with nsr1 := s.nsr1 + 1, nsr2 := s.nsr2 + 2, trace := s.trace ++ [Event.rSR1 coopSR1, Event.rSR2 0, Event.rSR2 0] }) := by
  rw [i2c_ready_wait]
  simp only [readSR1, coopEnv_sr1, coopEnv_bound, condition_wait, coop_busy, coop_err]
  simp [coop_busy]

lemma coop_exit_true (bytes : Nat → Nat) (fuel : Nat) (pclk : Nat) (s : Regs) :
    scoped_i2c_start_exit fuel (coopEnv bytes) pclk true s =
      some { s with cr1 := s.cr1 ||| STOP, cr2 := bclear s.cr2 LAST, nsr1 := s.nsr1 + 2, nsr2 := s.nsr2 + 2, trace := s.trace ++ [Event.rSR1 coopSR1, Event.rSR2 0,
               Event.wCR1 (s.cr1 ||| STOP), Event.rSR2 0,
               Event.wCR2 (bclear s.cr2 LAST), Event.rSR1 coopSR1] } := by
  rw [scoped_i2c_start_exit]
  simp only [readSR1, readSR2, coopEnv_sr1, coopEnv_sr2, if_true, writeCR1, coop_waitNotBusy]
  rw [scoped_exit_tail]
  simp only [writeCR2, readSR1, coopEnv_sr1, coop_err]
  simp

lemma naEnv_sr1 (k : Nat) : naEnv.sr1 k = SB ||| ADDR := rfl

lemma naEnv_sr2 (k : Nat) : naEnv.sr2 k = 0 := rfl

lemma naEnv_bound : naEnv.bound = 1 := rfl

lemma na_sb : ((SB ||| ADDR) &&& SB != 0) = true := by decide

lemma na_addr : ((SB ||| ADDR) &&& ADDR != 0) = true := by decide

lemma na_txe : (((SB ||| ADDR) &&& TxE ||| BTF) != 0) = true := by decide

lemma na_err : ((SB ||| ADDR) &&& error_condition != 0) = false := by decide

lemma na_waitSB (s : Regs) :
    waitSB naEnv s =
      (true, { s with nsr1 := s.nsr1 + 1, trace := s.trace ++ [Event.rSR1 (SB ||| ADDR)] }) := by
  simp [waitSB, condition_wait, readSR1, naEnv_sr1, naEnv_bound, na_sb]

lemma na_waitADDR (s : Regs) :
    waitADDR naEnv s =
      (true, { s with nsr1 := s.nsr1 + 1, trace := s.trace ++ [Event.rSR1 (SB ||| ADDR)] }) := by
  simp [waitADDR, condition_wait, readSR1, naEnv_sr1, naEnv_bound, na_addr]

lemma na_waitTxE (s : Regs) :
    waitTxE naEnv s =
      (true, { s with nsr1 := s.nsr1 + 1, trace := s.trace ++ [Event.rSR1 (SB ||| ADDR)] }) := by
  simp [waitTxE, condition_wait, readSR1, naEnv_sr1, naEnv_bound, na_txe]

lemma na_waitNotBusy (s : Regs) :
    waitNotBusy naEnv s =
      (true, { s with nsr2 := s.nsr2 + 1, trace := s.trace ++ [Event.rSR2 0] }) := by
  simp [waitNotBusy, condition_wait, readSR2, naEnv_sr2, naEnv_bound, zero_busy]

lemma na_busy (s : Regs) :
    i2c_status_busy naEnv s =
      (false, { s with nsr2 := s.nsr2 + 1, trace := s.trace ++ [Event.rSR2 0] }) := by
  simp [i2c_status_busy, readSR2, naEnv_sr2, zero_busy_ne]

lemma na_start (s : Regs) :
    i2c_start naEnv s =
      (true, { s with cr1 := s.cr1 ||| START, nsr1 := s.nsr1 + 1, trace := s.trace ++ [Event.wCR1 (s.cr1 ||| START), Event.rSR1 (SB ||| ADDR)] }) := by
  rw [i2c_start, writeCR1, na_waitSB]
  simp

lemma na_address_t (s : Regs) (address : Nat) :
    i2c_address_t naEnv s address =
      (true, { s with nsr1 := s.nsr1 + 1, trace := s.trace ++ [Event.wDR ((address % 256) <<< 1), Event.rSR1 (SB ||| ADDR)] }) := by
  rw [i2c_address_t, writeDR, na_waitADDR]
  simp

lemma na_put (s : Regs) (d : Nat) :
    i2c_transmitter_put naEnv s d =
      (true, { s with nsr1 := s.nsr1 + 1, trace := s.trace ++ [Event.wDR d, Event.rSR1 (SB ||| ADDR)] }) := by
  rw [i2c_transmitter_put, writeDR, na_waitTxE]
  simp

lemma na_ready (fuel : Nat) (s : Regs) (own pclk : Nat) :
    i2c_ready_wait fuel naEnv s own pclk =
      some (I2C_RESULT_SUCCESS,
        { s with nsr1 := s.nsr1 + 1, nsr2 := s.nsr2 + 2, trace := s.trace ++ [Event.rSR1 (SB ||| ADDR), Event.rSR2 0, Event.rSR2 0] }) := by
  rw [i2c_ready_wait]
  simp only [readSR1, naEnv_sr1, naEnv_bound, condition_wait, na_busy, na_err]
  simp [na_busy]

lemma na_exit_true (fuel : Nat) (pclk : Nat) (s : Regs) :
    scoped_i2c_start_exit fuel naEnv pclk true s =
      some { s with cr1 := s.cr1 ||| STOP, cr2 := bclear s.cr2 LAST, nsr1 := s.nsr1 + 2, nsr2 := s.nsr2 + 2, trace := s.trace ++ [Event.rSR1 (SB ||| ADDR), Event.rSR2 0,
               Event.wCR1 (s.cr1 ||| STOP), Event.rSR2 0,
               Event.wCR2 (bclear s.cr2 LAST), Event.rSR1 (SB ||| ADDR)] } := by
  rw [scoped_i2c_start_exit]
  simp only [readSR1, readSR2, naEnv_sr1, naEnv_sr2, if_true, writeCR1, na_waitNotBusy]
  rw [scoped_exit_tail]
  simp only [writeCR2, readSR1, naEnv_sr1, na_err]
  simp

lemma coop_put (bytes : Nat → Nat) (s : Regs) (d : Nat) :
    i2c_transmitter_put (coopEnv bytes) s d =
      (true, { s with nsr1 := s.nsr1 + 1, trace := s.trace ++ [Event.wDR d, Event.rSR1 coopSR1] }) := by
  rw [i2c_transmitter_put, writeDR, coop_waitTxE]
  simp

lemma recv_drain_coop (bytes : Nat → Nat) :
    ∀ (k fuel : Nat) (s : Regs) (buf : List Nat) (idx : Nat), k ≤ fuel →
      recv_drain fuel (coopEnv bytes) s buf idx (k + 2) =
        some (true,
          { s with nsr1 := s.nsr1 + 2 * k, ndr := s.ndr + k, trace := s.trace ++ drainT bytes s.ndr k },
          setSeq bytes buf idx s.ndr k, idx + k, 2) := by
  intro k
  induction k with
  | zero =>
    intro fuel s buf idx h
    rw [recv_drain.eq_def]
    simp [drainT, setSeq]
  | succ j ih =>
    intro fuel s buf idx h
    obtain ⟨f, rfl⟩ : ∃ f, fuel = f + 1 := ⟨fuel - 1, by omega⟩
    rw [recv_drain.eq_def]
    rw [if_neg (by omega)]
    simp only [Nat.add_one]
    simp only [coop_waitRxNEorBTF, if_true, readSR1, coopEnv_sr1, coop_rxne,
      readDR, coopEnv_dr]
    rw [show Nat.succ j + 2 - 1 = j + 2 by omega]
    rw [ih f _ _ _ (by omega)]
    simp only [drainT, setSeq, List.append_assoc, List.cons_append, List.nil_append,
      List.singleton_append]
    refine congrArg some ?_
    refine congrArg _ ?_
    have h1 : s.nsr1 + 2 + 2 * j = s.nsr1 + 2 * (j + 1) := by omega
    have h2 : s.ndr + 1 + j = s.ndr + (j + 1) := by omega
    simp [h1, h2]
    omega

lemma reset_drain_stuck (fuel : Nat) : ∀ s : Regs,
    reset_drain fuel (constEnv 1 1) s = none := by
  induction fuel with
  | zero => intro s; rfl
  | succ n ih =>
    intro s
    rw [reset_drain]
    simp only [readSR1, readSR2, constEnv]
    simpa using ih _

lemma reset_drain_isSome_of (e : Env) :
    ∀ (n : Nat) (s : Regs), (e.sr1 (s.nsr1 + n) = 0 ∨ e.sr2 (s.nsr2 + n) = 0) →
      (reset_drain (n + 1) e s).isSome = true := by
  intro n
  induction n with
  | zero =>
    intro s h
    by_cases h1 : e.sr1 s.nsr1 = 0
    · simp [reset_drain, readSR1, h1]
    · have h2 : e.sr2 s.nsr2 = 0 := by
        rcases h with h | h
        · exact absurd (by simpa using h) h1
        · simpa using h
      simp [reset_drain, readSR1, readSR2, h1, h2]
  | succ n ih =>
    intro s h
    by_cases h1 : e.sr1 s.nsr1 = 0
    · simp [reset_drain, readSR1, h1]
    · by_cases h2 : e.sr2 s.nsr2 = 0
      · simp [reset_drain, readSR1, readSR2, h1, h2]
      · rw [reset_drain]
        simp only [readSR1, readSR2]
        simp only [h1, h2, beq_iff_eq, if_neg, if_false]
        apply ih
        simpa [Nat.add_assoc, Nat.add_comm 1 n] using h

lemma reset_drain_isSome_to (e : Env) :
    ∀ (fuel : Nat) (s : Regs), (reset_drain fuel e s).isSome = true →
      ∃ n, e.sr1 (s.nsr1 + n) = 0 ∨ e.sr2 (s.nsr2 + n) = 0 := by
  intro fuel
  induction fuel with
  | zero => intro s h; simp [reset_drain] at h
  | succ n ih =>
    intro s h
    by_cases h1 : e.sr1 s.nsr1 = 0
    · exact ⟨0, Or.inl (by simpa using h1)⟩
    · by_cases h2 : e.sr2 s.nsr2 = 0
      · exact ⟨0, Or.inr (by simpa using h2)⟩
      · rw [reset_drain] at h
        simp [readSR1, readSR2, h1, h2] at h
        obtain ⟨m, hm⟩ := ih _ h
        exact ⟨m + 1, by simpa [Nat.add_assoc, Nat.add_comm 1 m] using hm⟩

lemma i2c_reset_isSome_iff_drain (fuel : Nat) (e : Env) (s : Regs) (own pclk : Nat) :
    (i2c_reset fuel e s own pclk).isSome =
      (reset_drain fuel e
        (writeCR1 ((writeCR1 (bclear s.cr1 PE) s).cr1 ||| SWRST) (writeCR1 (bclear s.cr1 PE) s))).isSome := by
  rw [i2c_reset]
  cases reset_drain fuel e
      (writeCR1 ((writeCR1 (bclear s.cr1 PE) s).cr1 ||| SWRST) (writeCR1 (bclear s.cr1 PE) s)) <;>
    simp

/-- C5 counterexample: under the register model where both status
registers constantly read 1, the reset drain loop `while (i2c.SR1 &&
i2c.SR2);` never exits, so `i2c_reset` does not terminate for any
iteration allowance — the claim that every engine wait is bounded (so
every operation, including reset, terminates for every modeled
register behaviour) is false. -/
theorem reset_hangs_on_stuck_status :
    ¬ ∃ fuel, (i2c_reset fuel (constEnv 1 1) regs0 3 8000000).isSome = true := by
  rintro ⟨fuel, h⟩
  rw [i2c_reset_isSome_iff_drain, reset_drain_stuck] at h
  simp at h

/-- C5 (amended): the polling waits routed through the bounded
condition-wait primitive observe its fixed iteration budget, but the
status-drain loop inside Reset is unbounded: `i2c_reset` terminates
(for some iteration allowance) exactly for those register behaviours
in which some poll of the drain loop reads SR1 = 0 or reads SR2 = 0;
in particular a register model where both stay nonzero forever makes
reset hang. -/
theorem i2c_reset_terminates_iff (e : Env) (s : Regs) (own pclk : Nat) :
    (∃ fuel, (i2c_reset fuel e s own pclk).isSome = true) ↔
      (∃ n, e.sr1 (s.nsr1 + n) = 0 ∨ e.sr2 (s.nsr2 + n) = 0) := by
  constructor
  · rintro ⟨fuel, h⟩
    rw [i2c_reset_isSome_iff_drain] at h
    obtain ⟨n, hn⟩ := reset_drain_isSome_to e fuel _ h
    exact ⟨n, by simpa [writeCR1] using hn⟩
  · rintro ⟨n, hn⟩
    refine ⟨n + 1, ?_⟩
    rw [i2c_reset_isSome_iff_drain]
    exact reset_drain_isSome_of e n _ (by simpa [writeCR1] using hn)

lemma condition_wait_trace (pred : Regs → Bool × Regs)
    (h : ∀ s, ∃ t, ((pred s).2).trace = s.trace ++ t) :
    ∀ (fuel : Nat) (s : Regs), ∃ t, ((condition_wait fuel pred s).2).trace = s.trace ++ t := by
  intro fuel
  induction fuel with
  | zero => intro s; exact ⟨[], by simp [condition_wait]⟩
  | succ n ih =>
    intro s
    obtain ⟨t1, h1⟩ := h s
    rw [condition_wait]
    rcases hp : pred s with ⟨b, s1⟩
    rw [hp] at h1
    cases b
    · obtain ⟨t2, h2⟩ := ih s1
      simp only at h1
      exact ⟨t1 ++ t2, by simp [h2, h1, List.append_assoc]⟩
    · exact ⟨t1, by simpa using h1⟩

lemma waitSB_trace (e : Env) (s : Regs) :
    ∃ t, ((waitSB e s).2).trace = s.trace ++ t :=
  condition_wait_trace _ (fun s => ⟨[Event.rSR1 (e.sr1 s.nsr1)], rfl⟩) e.bound s

lemma waitADDR_trace (e : Env) (s : Regs) :
    ∃ t, ((waitADDR e s).2).trace = s.trace ++ t :=
  condition_wait_trace _ (fun s => ⟨[Event.rSR1 (e.sr1 s.nsr1)], rfl⟩) e.bound s

lemma waitNotBusy_trace (e : Env) (s : Regs) :
    ∃ t, ((waitNotBusy e s).2).trace = s.trace ++ t :=
  condition_wait_trace _ (fun s => ⟨[Event.rSR2 (e.sr2 s.nsr2)], rfl⟩) e.bound s

lemma waitTC_trace (e : Env) (s : Regs) :
    ∃ t, ((waitTC e s).2).trace = s.trace ++ t :=
  condition_wait_trace _ (fun s => ⟨[], by simp [readTC]⟩) e.bound s

lemma i2c_start_trace (e : Env) (s : Regs) :
    ∃ t, ((i2c_start e s).2).trace = s.trace ++ t := by
  obtain ⟨t, h⟩ := waitSB_trace e (writeCR1 (s.cr1 ||| START) s)
  exact ⟨[Event.wCR1 (s.cr1 ||| START)] ++ t,
    by rw [i2c_start, h]; simp [writeCR1, List.append_assoc]⟩

lemma i2c_address_t_trace (e : Env) (s : Regs) (address : Nat) :
    ∃ t, ((i2c_address_t e s address).2).trace = s.trace ++ t := by
  obtain ⟨t, h⟩ := waitADDR_trace e (writeDR ((address % 256) <<< 1) s)
  exact ⟨[Event.wDR ((address % 256) <<< 1)] ++ t,
    by rw [i2c_address_t, h]; simp [writeDR, List.append_assoc]⟩

lemma i2c_address_r_trace (e : Env) (s : Regs) (address : Nat) :
    ∃ t, ((i2c_address_r e s address).2).trace = s.trace ++ t := by
  obtain ⟨t, h⟩ := waitADDR_trace e (writeDR (((address % 256) <<< 1) ||| 1) s)
  exact ⟨[Event.wDR (((address % 256) <<< 1) ||| 1)] ++ t,
    by rw [i2c_address_r, h]; simp [writeDR, List.append_assoc]⟩

lemma i2c_status_status_trace (e : Env) (s : Regs) :
    ∃ t, ((i2c_status_status e s).2).trace = s.trace ++ t := by
  rw [i2c_status_status]
  simp only [readSR1, readSR2]
  split_ifs <;> exact ⟨_, by simp only [List.append_assoc]; rfl⟩

lemma i2c_address_clear_trace (e : Env) (s : Regs) :
    ∃ t, ((i2c_address_clear e s)).trace = s.trace ++ t := by
  rw [i2c_address_clear]
  exact i2c_status_status_trace e s

lemma reset_drain_trace (e : Env) :
    ∀ (fuel : Nat) (s s' : Regs), reset_drain fuel e s = some s' →
      ∃ t, s'.trace = s.trace ++ t := by
  intro fuel
  induction fuel with
  | zero => intro s s' h; simp [reset_drain] at h
  | succ n ih =>
    intro s s' h
    rw [reset_drain] at h
    simp only [readSR1, readSR2] at h
    split_ifs at h
    · obtain rfl : _ = s' := Option.some_inj.1 h
      exact ⟨_, by simp only [List.append_assoc]; rfl⟩
    · obtain rfl : _ = s' := Option.some_inj.1 h
      exact ⟨_, by simp only [List.append_assoc]; rfl⟩
    · obtain ⟨t, ht⟩ := ih _ _ h
      exact ⟨_, by rw [ht]; simp only [List.append_assoc]; rfl⟩

lemma i2c_reset_trace (fuel : Nat) (e : Env) (s : Regs) (own pclk : Nat) (s' : Regs)
    (h : i2c_reset fuel e s own pclk = some s') : ∃ t, s'.trace = s.trace ++ t := by
  rw [i2c_reset] at h
  rcases hd : reset_drain fuel e
      (writeCR1 ((writeCR1 (bclear s.cr1 PE) s).cr1 ||| SWRST) (writeCR1 (bclear s.cr1 PE) s))
    with _ | s3
  · rw [hd] at h; exact absurd h (by simp)
  · rw [hd] at h
    obtain ⟨t, ht⟩ := reset_drain_trace e fuel _ _ hd
    obtain rfl : _ = s' := Option.some_inj.1 h
    exact ⟨_, by
      simp only [writeCCR, writeOAR2, writeOAR1, writeTRISE, writeCR2, writeCR1]
      rw [ht]
      simp only [writeCR1, List.append_assoc]
      rfl⟩

lemma scoped_exit_tail_trace (fuel : Nat) (e : Env) (pclk : Nat) (s s' : Regs)
    (h : scoped_exit_tail fuel e pclk s = some s') :
    ∃ t, s'.trace = s.trace ++ t := by
  rw [scoped_exit_tail] at h
  simp only [writeCR2, readSR1, readSR2] at h
  split_ifs at h
  · obtain ⟨t, ht⟩ := i2c_reset_trace fuel e _ 0 pclk s' h
    exact ⟨_, by rw [ht]; simp only [List.append_assoc]; rfl⟩
  · obtain rfl : _ = s' := Option.some_inj.1 h
    exact ⟨_, by simp only [writeSR1, List.append_assoc]; rfl⟩
  · obtain rfl : _ = s' := Option.some_inj.1 h
    exact ⟨_, by simp only [writeSR1, List.append_assoc]; rfl⟩
  · obtain rfl : _ = s' := Option.some_inj.1 h
    exact ⟨_, by simp only [List.append_assoc]; rfl⟩

lemma scoped_exit_trace (fuel : Nat) (e : Env) (pclk : Nat) (b : Bool) (s s' : Regs)
    (h : scoped_i2c_start_exit fuel e pclk b s = some s') :
    ∃ t, s'.trace = s.trace ++ t := by
  rw [scoped_i2c_start_exit] at h
  simp only [readSR1, readSR2] at h
  cases b
  · simp only [Bool.false_eq_true, if_false] at h
    obtain ⟨t2, ht2⟩ := scoped_exit_tail_trace fuel e pclk _ s' h
    exact ⟨_, by rw [ht2]; simp only [List.append_assoc]; rfl⟩
  · simp only [if_true] at h
    obtain ⟨t2, ht2⟩ := scoped_exit_tail_trace fuel e pclk _ s' h
    obtain ⟨t1, ht1⟩ := waitNotBusy_trace e
      (writeCR1 (s.cr1 ||| STOP)
        { s with nsr1 := s.nsr1 + 1, nsr2 := s.nsr2 + 1, trace := s.trace ++ [Event.rSR1 (e.sr1 s.nsr1)] ++ [Event.rSR2 (e.sr2 s.nsr2)] })
    exact ⟨_, by
      rw [ht2, ht1]
      simp only [writeCR1, List.append_assoc]
      rfl⟩

lemma countRDR_append (a b : List Event) : countRDR (a ++ b) = countRDR a + countRDR b :=
  List.countP_append _ _ _

lemma countRDR_drainT (bytes : Nat → Nat) : ∀ (k d : Nat), countRDR (drainT bytes d k) = k := by
  intro k
  induction k with
  | zero => intro d; rfl
  | succ j ih =>
    intro d
    simp [drainT, countRDR, List.countP_cons] at *
    simpa [countRDR] using ih (d + 1)

lemma dma_transfer_run_trace (fuel : Nat) (e : Env) (pclk : Nat) (s : Regs)
    (address : Nat) (code : I2C_RESULT_CODE) (s' : Regs)
    (h : dma_transfer_run fuel e pclk s address = some (code, s')) :
    ∃ t, s'.trace = s.trace ++ t := by
  rw [dma_transfer_run] at h
  rcases hst : i2c_start e s with ⟨started, s1⟩
  rw [hst] at h
  simp only at h
  obtain ⟨t0, ht0⟩ := i2c_start_trace e s
  rw [hst] at ht0
  simp only at ht0
  have hB : ∃ t, (if started = true then
      (match i2c_address_t e s1 address with
       | (aok, s) =>
        if aok = true then
          let s := i2c_address_clear e s
          match waitTC e s with
          | (ok, s) =>
            if ok = true then (I2C_RESULT_SUCCESS, s)
            else (I2C_DMA_MASTER_TRANSMITTER_SEND_TIMEOUT, s)
        else (I2C_DMA_MASTER_TRANSMITTER_ADDRESS_FAILED, s))
    else (I2C_DMA_MASTER_TRANSMITTER_ADDRESS_FAILED, s1)).2.trace = s1.trace ++ t := by
    cases started
    · exact ⟨[], by simp⟩
    · rcases ha : i2c_address_t e s1 address with ⟨aok, s2⟩
      obtain ⟨t1, ht1⟩ := i2c_address_t_trace e s1 address
      rw [ha] at ht1
      simp only at ht1
      cases aok
      · exact ⟨t1, by simp [ha, ht1]⟩
      · obtain ⟨t2, ht2⟩ := i2c_address_clear_trace e s2
        rcases hw : waitTC e (i2c_address_clear e s2) with ⟨ok, s3⟩
        obtain ⟨t3, ht3⟩ := waitTC_trace e (i2c_address_clear e s2)
        rw [hw] at ht3
        simp only at ht3
        cases ok <;>
          exact ⟨t1 ++ (t2 ++ t3), by simp [ha, hw, ht3, ht2, ht1, List.append_assoc]⟩
  obtain ⟨tb, htb⟩ := hB
  rcases hbody : (if started = true then
      (match i2c_address_t e s1 address with
       | (aok, s) =>
        if aok = true then
          let s := i2c_address_clear e s
          match waitTC e s with
          | (ok, s) =>
            if ok = true then (I2C_RESULT_SUCCESS, s)
            else (I2C_DMA_MASTER_TRANSMITTER_SEND_TIMEOUT, s)
        else (I2C_DMA_MASTER_TRANSMITTER_ADDRESS_FAILED, s))
    else (I2C_DMA_MASTER_TRANSMITTER_ADDRESS_FAILED, s1)) with ⟨code2, s2⟩
  rw [hbody] at h htb
  rcases hx : scoped_i2c_start_exit fuel e pclk started
      (emitEvent Event.chanDisable (writeCR2 (bclear s2.cr2 DMAEN) s2)) with _ | s3
  · rw [hx] at h
    exact absurd h (by simp)
  · rw [hx] at h
    obtain ⟨rfl, rfl⟩ : code2 = code ∧ s3 = s' := by
      have := Option.some_inj.1 h
      exact ⟨congrArg Prod.fst this, congrArg Prod.snd this⟩
    obtain ⟨t4, ht4⟩ := scoped_exit_trace fuel e pclk started _ _ hx
    refine ⟨t0 ++ (tb ++ ([Event.wCR2 (bclear s2.cr2 DMAEN), Event.chanDisable] ++ t4)), ?_⟩
    rw [ht4]
    simp only [emitEvent, writeCR2] at *
    rw [htb, ht0]
    simp [List.append_assoc]

lemma dma_receive_run_trace (fuel : Nat) (e : Env) (pclk : Nat) (s : Regs)
    (address : Nat) (code : I2C_RESULT_CODE) (s' : Regs)
    (h : dma_receive_run fuel e pclk s address = some (code, s')) :
    ∃ t, s'.trace = s.trace ++ t := by
  rw [dma_receive_run] at h
  rcases hst : i2c_start e s with ⟨started, s1⟩
  rw [hst] at h
  simp only at h
  obtain ⟨t0, ht0⟩ := i2c_start_trace e s
  rw [hst] at ht0
  simp only at ht0
  have hB : ∃ t, (if started = true then
      (match i2c_address_r e s1 address with
       | (aok, s) =>
        if aok = true then
          let s := i2c_address_clear e s
          match waitTC e s with
          | (ok, s) =>
            if ok = true then (I2C_RESULT_SUCCESS, s)
            else (I2C_DMA_MASTER_RECEIVER_RECV_TIMEOUT, s)
        else (I2C_DMA_MASTER_RECEIVER_ADDRESS_FAILED, s))
    else (I2C_DMA_MASTER_RECEIVER_START_FAILED, s1)).2.trace = s1.trace ++ t := by
    cases started
    · exact ⟨[], by simp⟩
    · rcases ha : i2c_address_r e s1 address with ⟨aok, s2⟩
      obtain ⟨t1, ht1⟩ := i2c_address_r_trace e s1 address
      rw [ha] at ht1
      simp only at ht1
      cases aok
      · exact ⟨t1, by simp [ha, ht1]⟩
      · obtain ⟨t2, ht2⟩ := i2c_address_clear_trace e s2
        rcases hw : waitTC e (i2c_address_clear e s2) with ⟨ok, s3⟩
        obtain ⟨t3, ht3⟩ := waitTC_trace e (i2c_address_clear e s2)
        rw [hw] at ht3
        simp only at ht3
        cases ok <;>
          exact ⟨t1 ++ (t2 ++ t3), by simp [ha, hw, ht3, ht2, ht1, List.append_assoc]⟩
  obtain ⟨tb, htb⟩ := hB
  rcases hbody : (if started = true then
      (match i2c_address_r e s1 address with
       | (aok, s) =>
        if aok = true then
          let s := i2c_address_clear e s
          match waitTC e s with
          | (ok, s) =>
            if ok = true then (I2C_RESULT_SUCCESS, s)
            else (I2C_DMA_MASTER_RECEIVER_RECV_TIMEOUT, s)
        else (I2C_DMA_MASTER_RECEIVER_ADDRESS_FAILED, s))
    else (I2C_DMA_MASTER_RECEIVER_START_FAILED, s1)) with ⟨code2, s2⟩
  rw [hbody] at h htb
  rcases hx : scoped_i2c_start_exit fuel e pclk started s2 with _ | s3
  · rw [hx] at h
    exact absurd h (by simp)
  · rw [hx] at h
    obtain ⟨rfl, rfl⟩ : code2 = code ∧
        (emitEvent Event.chanDisable (writeCR2 (bclear s3.cr2 DMAEN) s3)) = s' := by
      have := Option.some_inj.1 h
      exact ⟨congrArg Prod.fst this, congrArg Prod.snd this⟩
    obtain ⟨t4, ht4⟩ := scoped_exit_trace fuel e pclk started _ _ hx
    refine ⟨t0 ++ (tb ++ (t4 ++ [Event.wCR2 (bclear s3.cr2 DMAEN), Event.chanDisable])), ?_⟩
    simp only [emitEvent, writeCR2]
    rw [ht4, htb, ht0]
    simp [List.append_assoc]

/-- C4 counterexample: with SR1 constantly `STOPF` (stop-detected set,
address-match clear) the decoder returns the primary register alone
(`STOPF`), not the combined word the claim requires; and with SR1
constantly 0 (stop clear, address clear — the claim's "otherwise"
case) the decoder does read the secondary register. -/
theorem status_decoder_claim_cx :
    (i2c_status_status (constEnv STOPF 5) regs0).1 = STOPF ∧
    (i2c_status_status (constEnv STOPF 5) regs0).1 ≠ (5 <<< 16) ||| STOPF ∧
    (i2c_status_status (constEnv 0 5) regs0).2.nsr2 ≠ 0 := by
  decide

/-- C4 (amended): the decoder combines the secondary register into the
high 16 bits exactly when the stop-detected bit is CLEAR in the
primary register or the address-matched bit is set (the source tests
`(SR1 & STOPF) == 0`); only when stop-detected is set and
address-match is clear does it return the primary register alone,
without reading the secondary register (`nsr2` counts SR2 reads). -/
theorem status_decoder_combined_iff (v1 v2 : Nat) :
    (v1 &&& STOPF = 0 ∨ v1 &&& ADDR = ADDR →
      (i2c_status_status (constEnv v1 v2) regs0).1 = (v2 <<< 16) ||| v1 ∧
      (i2c_status_status (constEnv v1 v2) regs0).2.nsr2 = 1) ∧
    (v1 &&& STOPF ≠ 0 → v1 &&& ADDR ≠ ADDR →
      (i2c_status_status (constEnv v1 v2) regs0).1 = v1 ∧
      (i2c_status_status (constEnv v1 v2) regs0).2.nsr2 = 0) := by
  constructor
  · intro h
    by_cases h0 : v1 &&& STOPF = 0
    · simp [i2c_status_status, readSR1, readSR2, constEnv, regs0, h0]
    · have ha : v1 &&& ADDR = ADDR := by
        rcases h with h | h
        · exact absurd h h0
        · exact h
      simp [i2c_status_status, readSR1, readSR2, constEnv, regs0, h0, ha]
  · intro h0 ha
    simp [i2c_status_status, readSR1, readSR2, constEnv, regs0, h0, ha]

/-- Witness for `status_decoder_combined_iff`: at SR1 = 0 (stop clear)
the combined word is returned with one SR2 read; at SR1 = STOPF the
primary register is returned alone with no SR2 read. -/
theorem status_decoder_combined_iff_witness :
    ((i2c_status_status (constEnv 0 5) regs0).1 = (5 <<< 16) ||| 0 ∧
      (i2c_status_status (constEnv 0 5) regs0).2.nsr2 = 1) ∧
    ((i2c_status_status (constEnv STOPF 5) regs0).1 = STOPF ∧
      (i2c_status_status (constEnv STOPF 5) regs0).2.nsr2 = 0) :=
  ⟨(status_decoder_combined_iff 0 5).1 (by decide),
   (status_decoder_combined_iff STOPF 5).2 (by decide) (by decide)⟩

/-- C7: for every register model whose first SR1 poll releases the
drain loop, every nonzero 8-bit own address, and every peripheral
clock below 64 MHz (the FREQ field's width; the part's valid range is
2..50 MHz) starting from a CR2 with a clear FREQ field, Reset
programs CCR to clock/(100kHz*2), TRISE to clock-in-MHz + 1, the
FREQ field of CR2 to the clock in MHz, and OAR1 to the own address
shifted left by one. -/
theorem reset_programs_timing (e : Env) (s : Regs) (fuel own pclk : Nat)
    (hfuel : 1 ≤ fuel) (hdrain : e.sr1 s.nsr1 = 0)
    (hown : own ≠ 0) (hown2 : own < 256)
    (hmhz : pclk / 1000000 < 64) (hcr2 : s.cr2 &&& FREQ = 0) :
    ∃ s', i2c_reset fuel e s own pclk = some s' ∧
      s'.ccr = pclk / (i2c_clock_speed * 2) ∧
      s'.trise = pclk / 1000000 + 1 ∧
      s'.cr2 &&& FREQ = pclk / 1000000 ∧
      s'.oar1 = own <<< 1 := by
  obtain ⟨k, rfl⟩ : ∃ k, fuel = k + 1 := ⟨fuel - 1, by omega⟩
  have hpclk : pclk < 64000000 := by
    by_contra hc
    push_neg at hc
    have : 64 ≤ pclk / 1000000 := Nat.le_div_iff_mul_le (by norm_num) |>.2 (by omega)
    omega
  have hccr : pclk / (i2c_clock_speed * 2) < 65536 := by
    have : pclk / 200000 < 320 := Nat.div_lt_of_lt_mul (by omega)
    simpa [i2c_clock_speed] using this.trans (by norm_num)
  have hmhz2 : pclk / 1000000 < 65536 := hmhz.trans (by norm_num)
  have hown3 : own % 256 = own := Nat.mod_eq_of_lt hown2
  rw [i2c_reset]
  rw [reset_drain]
  simp only [readSR1, writeCR1, hdrain, beq_self_eq_true, if_true, beq_iff_eq]
  simp only [hown3, hown, if_neg, if_false, beq_iff_eq]
  refine ⟨_, rfl, ?_, ?_, ?_, ?_⟩
  · simp [writeCCR, writeOAR2, writeOAR1, writeTRISE, writeCR2, Nat.mod_eq_of_lt hccr]
  · simp [writeCCR, writeOAR2, writeOAR1, writeTRISE, writeCR2, Nat.mod_eq_of_lt hmhz2]
  · simp only [writeCCR, writeOAR2, writeOAR1, writeTRISE, writeCR2]
    rw [Nat.mod_eq_of_lt hmhz2, lor_land_right]
    have hf : pclk / 1000000 &&& FREQ = pclk / 1000000 := by
      have := Nat.and_pow_two_sub_one_eq_mod (pclk / 1000000) 6
      simpa [FREQ, Nat.mod_eq_of_lt hmhz] using this
    simp [hcr2, hf]
  · simp [writeCCR, writeOAR2, writeOAR1, writeTRISE, writeCR2]

/-- Witness for `reset_programs_timing`: own address 3, 8 MHz clock —
Reset programs divisor 40 and rise-time 9. -/
theorem reset_programs_timing_witness :
    ∃ s', i2c_reset 1 (constEnv 0 0) regs0 3 8000000 = some s' ∧
      s'.ccr = 40 ∧ s'.trise = 9 ∧ s'.oar1 = 6 := by
  obtain ⟨s', h1, h2, h3, _, h5⟩ :=
    reset_programs_timing (constEnv 0 0) regs0 1 3 8000000
      (by decide) (by decide) (by decide) (by decide) (by norm_num) (by decide)
  refine ⟨s', h1, ?_, ?_, ?_⟩
  · rw [h2]; norm_num [i2c_clock_speed]
  · rw [h3]
  · rw [h5]; decide

/-- C8: a `dma_transfer` on an instance with no transmit channel and a
`dma_receive` on an instance with no receive channel each return false
with the corresponding (distinct) no-DMA code stored as the last
result, and the instance's registers — including the access trace, so
no I2C register write happened — are exactly as before. -/
theorem dma_no_channel_fails_untouched
    (fuel : Nat) (e : Env) (pclk : Nat) (f : I2CInst) (address size : Nat)
    (buf : List Nat) (htx : f.hasTxDma = false) (hrx : f.hasRxDma = false) :
    i2c_dma_transfer fuel e pclk f address size
      = some (false, { f with result_code := I2C_DMA_MASTER_TRANSMITTER_HAS_NO_DMA }) ∧
    i2c_dma_receive fuel e pclk f address buf size
      = some (false, { f with result_code := I2C_DMA_MASTER_RECEIVER_HAS_NO_DMA }, buf) ∧
    I2C_DMA_MASTER_TRANSMITTER_HAS_NO_DMA ≠ I2C_DMA_MASTER_RECEIVER_HAS_NO_DMA := by
  refine ⟨?_, ?_, by decide⟩
  · rw [i2c_dma_transfer]
    simp [htx]
  · rw [i2c_dma_receive]
    simp [hrx]

/-- Witness for `dma_no_channel_fails_untouched` at a concrete
unattached instance. -/
theorem dma_no_channel_fails_untouched_witness :
    i2c_dma_transfer 5 (constEnv 0 0) 8000000 instNoDma 80 4
      = some (false, { instNoDma with result_code := I2C_DMA_MASTER_TRANSMITTER_HAS_NO_DMA }) ∧
    i2c_dma_receive 5 (constEnv 0 0) 8000000 instNoDma 80 [7, 8] 2
      = some (false, { instNoDma with result_code := I2C_DMA_MASTER_RECEIVER_HAS_NO_DMA }, [7, 8]) := by
  have h := dma_no_channel_fails_untouched 5 (constEnv 0 0) 8000000
    instNoDma 80 4 [7, 8] rfl rfl
  exact ⟨h.1, h.2.1⟩

/-- C10 counterexample: a reset with own-address argument 0 on a
peripheral whose OAR1 reads 3 (so OAR1 >> 1 = 1 is nonzero, the
claim's premise) reprograms OAR1 to 2, not back to 3 — the
odd low bit is lost, so OAR1 is not preserved. -/
theorem reset_own0_oar1_cx :
    (i2c_reset 1 (constEnv 0 0) { regs0 with oar1 := 3 } 0 8000000).map Regs.oar1
      = some 2 := by
  decide

/-- C10 (amended): Reset with own-address argument 0 reads the
previous address back as `(OAR1 >> 1)` truncated to 8 bits (the
`uint8_t` parameter) and reprograms OAR1 with that value shifted left
one; consequently OAR1 is preserved exactly when its initial value has
the form `a <<< 1` with `0 < a < 256`, and is altered otherwise. -/
theorem reset_own0_reprograms_oar1 (e : Env) (s : Regs) (fuel pclk : Nat)
    (hfuel : 1 ≤ fuel) (hdrain : e.sr1 s.nsr1 = 0) :
    ∃ s', i2c_reset fuel e s 0 pclk = some s' ∧
      s'.oar1 = ((s.oar1 >>> 1) % 256) <<< 1 ∧
      (∀ a, a < 256 → s.oar1 = a <<< 1 → s'.oar1 = s.oar1) := by
  obtain ⟨k, rfl⟩ : ∃ k, fuel = k + 1 := ⟨fuel - 1, by omega⟩
  rw [i2c_reset]
  rw [reset_drain]
  simp only [readSR1, writeCR1, hdrain, beq_self_eq_true, if_true, beq_iff_eq]
  refine ⟨_, rfl, ?_, ?_⟩
  · simp [writeCCR, writeOAR2, writeOAR1, writeTRISE, writeCR2]
  · intro a ha hv
    simp only [writeCCR, writeOAR2, writeOAR1, writeTRISE, writeCR2]
    have h2 : (a <<< 1) >>> 1 = a := by
      rw [Nat.shiftLeft_eq, Nat.shiftRight_eq_div_pow]
      simp
    rw [hv, h2, Nat.mod_eq_of_lt ha]

/-- Witness for `reset_own0_reprograms_oar1`: an even in-range OAR1
value (10 = 5 << 1) is preserved across a reset with own-address
argument 0. -/
theorem reset_own0_reprograms_oar1_witness :
    ∃ s', i2c_reset 1 (constEnv 0 0) { regs0 with oar1 := 10 } 0 8000000 = some s' ∧
      s'.oar1 = 10 := by
  obtain ⟨s', h1, _, h3⟩ :=
    reset_own0_reprograms_oar1 (constEnv 0 0) { regs0 with oar1 := 10 } 1 8000000
      (by decide) (by decide)
  exact ⟨s', h1, by simpa using h3 5 (by decide) (by decide)⟩

/-- C1, failing at size 3: `i2c::read` dispatches receivers only for
`size > 3`, `size == 2` and `size == 1`, so a read of exactly 3 bytes
runs no receiver at all — under the cooperative register model it
returns true with the success code while the buffer is left
untouched, violating the claim that the buffer then equals the 3
delivered bytes.  For sizes 1, 2 and 4 the same model yields success
with the delivered bytes in the buffer and later bytes unmodified, so
the claim holds everywhere except size 3. -/
theorem read_size3_skips_receiver :
    ((i2c_read 10 (coopEnv demoBytes) 8000000 inst0 80 [90, 91, 92, 93, 94] 3).map
        (fun r => (r.1, r.2.1.result_code, r.2.2))
      = some (true, I2C_RESULT_SUCCESS, [90, 91, 92, 93, 94])) ∧
    ((i2c_read 10 (coopEnv demoBytes) 8000000 inst0 80 [90, 91, 92, 93, 94] 1).map
        (fun r => (r.1, r.2.1.result_code, r.2.2))
      = some (true, I2C_RESULT_SUCCESS, [16, 91, 92, 93, 94])) ∧
    ((i2c_read 10 (coopEnv demoBytes) 8000000 inst0 80 [90, 91, 92, 93, 94] 2).map
        (fun r => (r.1, r.2.1.result_code, r.2.2))
      = some (true, I2C_RESULT_SUCCESS, [16, 17, 92, 93, 94])) ∧
    ((i2c_read 10 (coopEnv demoBytes) 8000000 inst0 80 [90, 91, 92, 93, 94] 4).map
        (fun r => (r.1, r.2.1.result_code, r.2.2))
      = some (true, I2C_RESULT_SUCCESS, [16, 17, 18, 19, 94])) := by
  have hbne : (I2C_RESULT_SUCCESS != I2C_RESULT_SUCCESS) = false := by decide
  refine ⟨?_, ?_, ?_, ?_⟩
  · simp only [i2c_read, coop_ready, hbne]
    simp
  · simp only [i2c_read, coop_ready, hbne]
    simp only [polling_master_receiver_1, writeCR1, coop_start, coop_address_r,
      coop_clear, coop_waitRxNE, readDR, coopEnv_dr, coop_exit_true]
    simp [demoBytes, List.set, inst0, regs0]
  · simp only [i2c_read, coop_ready, hbne]
    simp only [polling_master_receiver_2, writeCR1, coop_start, coop_address_r,
      coop_clear, coop_waitBTF, coop_waitRxNEorBTF, coop_waitNotBusy,
      readDR, coopEnv_dr, coop_exit_true]
    simp [demoBytes, List.set, inst0, regs0]
  · have hdrain := recv_drain_coop demoBytes 2 10
    simp only [i2c_read, coop_ready, hbne]
    simp [polling_master_receiver_ge3, coop_start, coop_address_r,
      coop_clear, coop_waitBogus, coop_waitBTF, coop_waitRxNE, coop_waitRxNEorBTF,
      readDR, coopEnv_dr, writeCR1, coop_exit_true,
      hdrain _ _ _ (by omega), setSeq, drainT, demoBytes, List.set, inst0, regs0]

/-- C2, failing input: the per-byte wait of `i2c_transmitter` uses
`_.SR1 & TxE | BTF`, which by C++ precedence is `(SR1 & TxE) | BTF`
and is nonzero for every SR1 value, so the wait never fails.  Under a
register model whose SR1 constantly reads `SB ||| ADDR` (start and
address succeed but the data-register-empty-or-byte-transfer-finished
condition never holds), a 3-byte write still reports success instead
of aborting with the send-timeout code; the second conjunct records
that the TxE-or-BTF condition is indeed never satisfied there. -/
theorem write_wait_predicate_constant :
    ((i2c_write 10 naEnv 8000000 inst0 80 [1, 2, 3]).map
        (fun r => (r.1, r.2.result_code))
      = some (true, I2C_RESULT_SUCCESS)) ∧
    (SB ||| ADDR) &&& (TxE ||| BTF) = 0 := by
  have hbne : (I2C_RESULT_SUCCESS != I2C_RESULT_SUCCESS) = false := by decide
  refine ⟨?_, by decide⟩
  simp only [i2c_write, writeCR1, na_ready, hbne]
  simp [na_start, na_address_t, transmit_loop, na_put, writeCR1, na_exit_true,
    inst0, regs0]

/-- C3, failing at `dma_receive` with size 1: the source executes
`return polling_master_receiver<1>(...)(...)` inside a `bool`
function, converting the result code to `bool` (false exactly for the
success code) and never storing it in `result_code_`.  Under the
cooperative model the single-byte receive succeeds (the byte lands in
the buffer) and the stored code is the readiness check's success, yet
the call returns false — so "returns true iff the stored code is the
success code" fails. -/
theorem dma_receive_size1_returns_enum_as_bool :
    (i2c_dma_receive 10 (coopEnv demoBytes) 8000000 inst0 80 [90] 1).map
        (fun r => (r.1, r.2.1.result_code, r.2.2))
      = some (false, I2C_RESULT_SUCCESS, [16]) := by
  have hbne : (I2C_RESULT_SUCCESS != I2C_RESULT_SUCCESS) = false := by decide
  simp only [i2c_dma_receive, coop_ready, hbne]
  simp [polling_master_receiver_1, coop_start, coop_address_r, coop_clear,
    coop_waitRxNE, readDR, coopEnv_dr, writeCR1, coop_exit_true, cppBool,
    demoBytes, List.set, inst0, regs0, hbne]

/-- C9: whenever the DMA transmit engine completes with a result code,
its access trace (after the register state it started from) begins
with the constructor's CR1 write followed immediately by the
transmit-buffer binding, whose bound length is 1 when the requested
size is exactly 1 and size+1 for every other size; the DMA receive
engine's trace begins with its CR1 write followed by the
receive-buffer binding with bound length exactly the requested
size. -/
theorem dma_bind_lengths (fuel : Nat) (e : Env) (pclk : Nat) (s : Regs)
    (address size : Nat) :
    (∀ code s', dma_master_transfer fuel e pclk s address size = some (code, s') →
      ∃ t, s'.trace = s.trace ++
        Event.wCR1 (s.cr1 ||| (ACK ||| PE)) ::
          Event.bindTx (if size == 1 then 1 else size + 1) :: t) ∧
    (∀ code s', dma_master_receiver fuel e pclk s address size = some (code, s') →
      ∃ t, s'.trace = s.trace ++
        Event.wCR1 (s.cr1 ||| PE) :: Event.bindRx size :: t) := by
  constructor
  · intro code s' h
    rw [dma_master_transfer] at h
    obtain ⟨t, ht⟩ := dma_transfer_run_trace fuel e pclk _ address code s' h
    exact ⟨Event.chanEnable :: Event.wCR2 (s.cr2 ||| DMAEN) :: t, by
      rw [ht]
      simp only [writeCR1, emitEvent, writeCR2, List.append_assoc]
      rfl⟩
  · intro code s' h
    rw [dma_master_receiver] at h
    obtain ⟨t, ht⟩ := dma_receive_run_trace fuel e pclk _ address code s' h
    exact ⟨Event.chanEnable :: Event.wCR2 (s.cr2 ||| DMAEN) ::
        Event.wCR2 ((s.cr2 ||| DMAEN) ||| LAST) :: t, by
      rw [ht]
      simp only [writeCR1, emitEvent, writeCR2, List.append_assoc]
      rfl⟩

/-- Witness for `dma_bind_lengths`: a completed cooperative transmit
of 4 bytes binds length 5 and a completed cooperative receive of 2
bytes binds length 2, right after the constructor's CR1 write. -/
theorem dma_bind_lengths_witness :
    (∃ t, (dma_master_transfer 5 (coopEnv demoBytes) 8000000 regs0 80 4).map
        (fun r => r.2.trace)
      = some (regs0.trace ++ Event.wCR1 (regs0.cr1 ||| (ACK ||| PE)) ::
          Event.bindTx 5 :: t)) ∧
    (∃ t, (dma_master_receiver 5 (coopEnv demoBytes) 8000000 regs0 80 2).map
        (fun r => r.2.trace)
      = some (regs0.trace ++ Event.wCR1 (regs0.cr1 ||| PE) ::
          Event.bindRx 2 :: t)) := by
  constructor
  · have hs : (dma_master_transfer 5 (coopEnv demoBytes) 8000000 regs0 80 4).isSome = true := by
      simp [dma_master_transfer, dma_transfer_run, writeCR1, writeCR2, emitEvent,
        coop_start, coop_address_t, coop_clear, coop_waitTC, coop_exit_true, regs0]
    obtain ⟨c, s', hcs⟩ : ∃ c s',
        dma_master_transfer 5 (coopEnv demoBytes) 8000000 regs0 80 4 = some (c, s') := by
      rcases hx : dma_master_transfer 5 (coopEnv demoBytes) 8000000 regs0 80 4 with _ | ⟨c, s'⟩
      · rw [hx] at hs; simp at hs
      · exact ⟨c, s', rfl⟩
    obtain ⟨t, ht⟩ :=
      (dma_bind_lengths 5 (coopEnv demoBytes) 8000000 regs0 80 4).1 c s' hcs
    exact ⟨t, by rw [hcs]; simp [ht]⟩
  · have hs : (dma_master_receiver 5 (coopEnv demoBytes) 8000000 regs0 80 2).isSome = true := by
      simp [dma_master_receiver, dma_receive_run, writeCR1, writeCR2, emitEvent,
        coop_start, coop_address_r, coop_clear, coop_waitTC, coop_exit_true, regs0]
    obtain ⟨c, s', hcs⟩ : ∃ c s',
        dma_master_receiver 5 (coopEnv demoBytes) 8000000 regs0 80 2 = some (c, s') := by
      rcases hx : dma_master_receiver 5 (coopEnv demoBytes) 8000000 regs0 80 2 with _ | ⟨c, s'⟩
      · rw [hx] at hs; simp at hs
      · exact ⟨c, s', rfl⟩
    obtain ⟨t, ht⟩ :=
      (dma_bind_lengths 5 (coopEnv demoBytes) 8000000 regs0 80 2).2 c s' hcs
    exact ⟨t, by rw [hcs]; simp [ht]⟩

/-- C6: in the polling master receive path for every size ≥ 3, under
the cooperative register model, the embedded trace decomposes as: a
part `t1` containing exactly the first size−2 data-register reads,
then the CR1 write clearing the ACK bit (value 257, ACK clear) and
the CR1 write setting the STOP bit (value 769), then — only after
those two writes — the data-register read of the (size−1)th byte
(index size−2), then the byte-ready wait's SR1 read and the read of
the last byte, and a tail `t2` with no further data reads.  So the
NACK and STOP register writes precede the read of the second-to-last
byte, which precedes the read of the last. -/
theorem recv_ge3_nack_stop_before_penultimate (bytes : Nat → Nat) (address : Nat)
    (buf : List Nat) (n fuel : Nat) (hn : 3 ≤ n) (hf : n ≤ fuel + 2) :
    ∃ t1 t2,
      (polling_master_receiver_ge3 fuel (coopEnv bytes) 8000000 regs0 address buf n).map
          (fun r => (r.1, r.2.1.trace)) =
        some (I2C_RESULT_SUCCESS,
          t1 ++ Event.wCR1 257 :: Event.wCR1 769 :: Event.rDR (bytes (n - 2)) ::
            Event.rSR1 coopSR1 :: Event.rDR (bytes (n - 1)) :: t2) ∧
      countRDR t1 = n - 2 ∧ countRDR t2 = 0 ∧
      257 &&& ACK = 0 ∧ 769 &&& STOP = STOP := by
  obtain ⟨k, rfl⟩ : ∃ k, n = k + 3 := ⟨n - 3, by omega⟩
  have hdrain := recv_drain_coop bytes (k + 1) fuel
  refine ⟨[Event.wCR1 1, Event.wCR1 257, Event.rSR1 coopSR1,
      Event.wDR (((address % 256) <<< 1) ||| 1), Event.rSR1 coopSR1, Event.rSR1 coopSR1,
      Event.rSR2 0, Event.rSR1 coopSR1, Event.rSR1 coopSR1] ++
      drainT bytes 0 (k + 1) ++ [Event.rSR1 coopSR1],
    [Event.rSR1 coopSR1, Event.rSR2 0, Event.wCR1 769, Event.rSR2 0, Event.wCR2 0,
      Event.rSR1 coopSR1], ?_, ?_, by simp [countRDR], by decide, by decide⟩
  · rw [show k + 3 = (k + 1) + 2 by omega]
    simp [polling_master_receiver_ge3, coop_start, coop_address_r,
      coop_clear, coop_waitBogus, coop_waitBTF, coop_waitRxNE, coop_waitRxNEorBTF,
      readDR, coopEnv_dr, writeCR1, coop_exit_true,
      hdrain _ _ _ (by omega), regs0, bclear, PE, START, ACK, STOP, LAST]
    decide
  · rw [countRDR_append, countRDR_append, countRDR_drainT]
    simp [countRDR, List.countP_cons]

/-- Witness for `recv_ge3_nack_stop_before_penultimate` at size 4. -/
theorem recv_ge3_nack_stop_before_penultimate_witness :
    ∃ t1 t2,
      (polling_master_receiver_ge3 2 (coopEnv demoBytes) 8000000 regs0 80 [0, 0, 0, 0] 4).map
          (fun r => (r.1, r.2.1.trace)) =
        some (I2C_RESULT_SUCCESS,
          t1 ++ Event.wCR1 257 :: Event.wCR1 769 :: Event.rDR (demoBytes 2) ::
            Event.rSR1 coopSR1 :: Event.rDR (demoBytes 3) :: t2) ∧
      countRDR t1 = 2 ∧ countRDR t2 = 0 ∧
      257 &&& ACK = 0 ∧ 769 &&& STOP = STOP := by
  simpa using
    recv_ge3_nack_stop_before_penultimate demoBytes 80 [0, 0, 0, 0] 4 2
      (by decide) (by decide)

end stm32f103
